import Mathlib

/-!
# mc-terrarium REST server: verification development

Shallow embedding of `pkg/api/rest/server/server.go` (`RunServer`) and
`pkg/api/rest/docs/docs.go` (`docTemplate`, `SwaggerInfo`), together with a
model of the running-status tracker, the workspace manager and the orchestrator
façade of `pkg/tofu`, whose code is called from `RunServer` and from the
handlers but lives outside the two files above, and with the rate limiter of
echo and `golang.org/x/time/rate` that `RunServer` installs.
-/

namespace Terrarium

/-! ## Running-status tracker (`pkg/tofu`) -/

/-- Modelled from the spec: the `action` attribute of an `OperationRecord`
(data model of the tracker in `pkg/tofu`). -/
inductive Action
  | Init
  | Plan
  | Apply
  | Destroy
deriving DecidableEq, Repr

/-- Modelled from the spec: the `status` attribute of an `OperationRecord`
(data model of the tracker in `pkg/tofu`). -/
inductive Status
  | Idle
  | Running
  | Succeeded
  | Failed
deriving DecidableEq, Repr

/-- Modelled from the spec: the `OperationRecord` of `pkg/tofu`, the unit
tracked by the Running-Status Tracker. Timestamps are abstract clock readings. -/
structure OperationRecord where
  resourceGroupId : String
  scope : String
  action : Action
  status : Status
  startedAt : Nat
  finishedAt : Option Nat
  lastError : Option String
deriving DecidableEq, Repr

/-- Modelled from the spec: the key `(resourceGroupId, scope, action)` of the
`RunningStatusMap` of `pkg/tofu`. -/
abbrev Key := String × String × Action

/-- The key under which a record is stored. -/
def OperationRecord.key (r : OperationRecord) : Key :=
  (r.resourceGroupId, r.scope, r.action)

/-- Modelled from the spec: the `RunningStatusMap` of `pkg/tofu`, the mapping
of key `(resourceGroupId, scope, action)` to `OperationRecord`. It is
represented by the list of its records, each stored under its own key. -/
abbrev RunningStatusMap := List OperationRecord

/-- Modelled from the spec: the conflict error of `acquire` in `pkg/tofu`. -/
inductive TrackerError
  | OperationInProgress
deriving DecidableEq, Repr

/-- Modelled from the spec: the lease of `pkg/tofu`, the token a successful
`acquire` returns for its key. -/
structure Lease where
  key : Key
deriving DecidableEq, Repr

/-- Modelled from the spec: the outcome handed to `release` in `pkg/tofu`. -/
inductive Outcome
  | Succeeded
  | Failed (err : String)
deriving DecidableEq, Repr

/-- The terminal status an outcome stands for. -/
def Outcome.status : Outcome → Status
  | .Succeeded => .Succeeded
  | .Failed _ => .Failed

/-- The error message an outcome carries, if any. -/
def Outcome.lastError : Outcome → Option String
  | .Succeeded => none
  | .Failed err => some err

/-- Modelled from the spec: the check of `acquire`. A lease is the exclusive
right to run one action against one `(resourceGroupId, scope)` (glossary), and
at most one record of such a pair may be `Running` (data model): the check
looks for a `Running` record of the pair of the key, whatever its action. -/
def hasRunning (m : RunningStatusMap) (k : Key) : Bool :=
  m.any (fun r => decide (r.resourceGroupId = k.1) && decide (r.scope = k.2.1) &&
    decide (r.status = Status.Running))

/-- Modelled from the spec: `acquire` of the Running-Status Tracker
(`pkg/tofu`, absent from the sources). It checks that no `Running` record
exists for the `(resourceGroupId, scope)` of the key; if clear it inserts a
`Running` record under the key `(resourceGroupId, scope, action)`, overwriting
the terminal history of that key, and returns a lease; otherwise it fails
with `OperationInProgress`. -/
def acquire (m : RunningStatusMap) (resourceGroupId scope : String) (action : Action)
    (now : Nat) : Except TrackerError (Lease × RunningStatusMap) :=
  let k : Key := (resourceGroupId, scope, action)
  if hasRunning m k then
    .error .OperationInProgress
  else
    .ok (⟨k⟩,
      { resourceGroupId := resourceGroupId, scope := scope, action := action,
        status := .Running, startedAt := now, finishedAt := none, lastError := none }
        :: m.filter (fun r => decide (r.key ≠ k)))

/-- Modelled from the spec: `release` of the Running-Status Tracker
(`pkg/tofu`, absent from the sources). It transitions the leased `Running`
record to `Succeeded` or `Failed`, stamps `finishedAt` and records
`lastError` if any. -/
def release (m : RunningStatusMap) (lease : Lease) (outcome : Outcome) (now : Nat) :
    RunningStatusMap :=
  m.map (fun r =>
    if r.key = lease.key ∧ r.status = Status.Running then
      { r with status := outcome.status, finishedAt := some now,
               lastError := outcome.lastError }
    else r)

/-- One transition of the tracker. -/
inductive Step
  | acquire (resourceGroupId scope : String) (action : Action) (now : Nat)
  | release (lease : Lease) (outcome : Outcome) (now : Nat)
deriving DecidableEq, Repr

/-- The map after one transition; a refused `acquire` leaves it unchanged. -/
def step (m : RunningStatusMap) : Step → RunningStatusMap
  | .acquire rg scope action now =>
    match acquire m rg scope action now with
    | .ok (_, m') => m'
    | .error _ => m
  | .release lease outcome now => release m lease outcome now

/-- The map reached from the empty map by a sequence of transitions. -/
def runSteps (steps : List Step) : RunningStatusMap :=
  steps.foldl step []

/-- Number of `Running` records of a pair `(resourceGroupId, scope)`, counting
the records of all actions. -/
def runningCount (m : RunningStatusMap) (resourceGroupId scope : String) : Nat :=
  m.countP (fun r => decide (r.resourceGroupId = resourceGroupId) &&
    decide (r.scope = scope) && decide (r.status = Status.Running))

/-- Modelled from the spec: the `lastError` that `pkg/tofu` records on a
record reconciled at startup. -/
def interruptedByRestart : String := "interrupted by restart"

/-- Modelled from the spec: the startup reconciliation of one persisted record
in `pkg/tofu`: `Running` becomes `Failed` with the restart message. -/
def reconcile (r : OperationRecord) : OperationRecord :=
  if r.status = Status.Running then
    { r with status := .Failed, lastError := some interruptedByRestart }
  else r

/-- Modelled from the spec: `LoadRunningStatusMap` of `pkg/tofu` (called by
`RunServer`, absent from the sources). The persisted map is read whole; an
absent file gives the empty map; every record found `Running` is reconciled
to `Failed` with `lastError = "interrupted by restart"`. -/
def LoadRunningStatusMap (persisted : Option RunningStatusMap) : RunningStatusMap :=
  match persisted with
  | none => []
  | some m => m.map reconcile


/-! ## Basic authentication (`server.go`, the `BasicAuthConfig` of `RunServer`) -/

/-- A byte of a Go `[]byte`. -/
abbrev Byte := Fin 256

/-- The conversion `[]byte(s)` of a string of configuration text. -/
def bytes (s : String) : List Byte :=
  s.toUTF8.data.toList.map (fun b => b.val)

/-- Go `crypto/subtle.ConstantTimeByteEq` on two `uint8` values:
`int((uint32(x^y) - 1) >> 31)`, the subtraction wrapping at 32 bits. -/
def ConstantTimeByteEq (x y : Nat) : Nat :=
  (((x ^^^ y) % 2 ^ 32 + 2 ^ 32 - 1) % 2 ^ 32) >>> 31

/-- The loop of `ConstantTimeCompare`: `v |= x[i] ^ y[i]` on a `byte`
accumulator, over the common indices of the two slices. -/
def orXor (v : Nat) : List Byte → List Byte → Nat
  | a :: x, b :: y => orXor ((v ||| (a.val ^^^ b.val)) % 256) x y
  | _, _ => v

/-- Go `crypto/subtle.ConstantTimeCompare`: `0` at once when the lengths
differ, else `ConstantTimeByteEq` of the accumulated differences and `0`. -/
def ConstantTimeCompare (x y : List Byte) : Nat :=
  if x.length ≠ y.length then 0
  else ConstantTimeByteEq (orXor 0 x y) 0

/-- The `Skipper` of the basic-auth configuration, applied to the route path
`c.Path()` matched for the request. -/
def Skipper (path : String) : Bool :=
  if path = "/terrarium/readyz" ∨ path = "/terrarium/httpVersion" then true
  else false

/-- The `Validator` of the basic-auth configuration. It closes over `apiUser`
and `apiPass`, the configured `api.username` and `api.password`; `username`
and `password` are the credentials of the request, arbitrary byte strings.
The result is the pair `(bool, error)`, `none` standing for a `nil` error. -/
def Validator (apiUser apiPass : String) (username password : List Byte) :
    Bool × Option String :=
  if ConstantTimeCompare username (bytes apiUser) = 1 ∧
      ConstantTimeCompare password (bytes apiPass) = 1 then
    (true, none)
  else
    (false, none)

/-! ## `RunServer` (`server.go`) -/

/-- The middlewares `RunServer` hands to `e.Use`. `BasicAuth` stands for
`BasicAuthWithConfig` with `Skipper` and with `Validator apiUser apiPass`. -/
inductive Middleware
  | Zerologger
  | Recover
  | RateLimiter (rate : Nat)
  | RequestID
  | CORS (allowOrigins allowMethods : List String)
  | BasicAuth (apiUser apiPass : String)
deriving DecidableEq, Repr

/-- The handlers `RunServer` registers itself. -/
inductive Handler
  | swaggerRedirect
  | echoSwaggerWrapHandler
  | Readyz
  | HTTPVersion
  | TofuVersion
deriving DecidableEq, Repr

/-- The value `e.Start` returns. -/
inductive StartResult
  | nil
  | ErrServerClosed
  | other (msg : String)
deriving DecidableEq, Repr

/-- The observable actions of `RunServer` and of its shutdown goroutine.
`start` is the call of `e.Start`, `startReturn` its return: the server has
stopped; `wgWait` is the return of `wg.Wait`. -/
inductive Event
  | logInfo (msg : String)
  | logWarn (msg : String)
  | logError (err msg : String)
  | logFatal (msg : String)
  | LoadRunningStatusMap
  | SaveRunningStatusMap
  | echoNew
  | use (m : Middleware)
  | hideBanner
  | print (out : String)
  | GET (path : String) (h : Handler)
  | group (path : String)
  | RegisterRoutesForTestEnv (group : String)
  | RegisterRoutesForRG (group : String)
  | RegisterRoutesForVPN (group : String)
  | RegisterSampleRoutes (group : String)
  | notifyContext
  | wgAdd (delta : Nat)
  | go
  | setReady (ready : Bool)
  | start (address : String)
  | startReturn (result : StartResult)
  | loggerPanic (msg : String)
  | wgWait
  | stop
  | ctxDone
  | withTimeout (seconds : Nat)
  | shutdown
  | cancel
  | wgDone
deriving DecidableEq, Repr

/-- What `RunServer` reads from its surroundings: the configuration, the
results of the `tofu` calls and of the echo server, and the shutdown signal. -/
structure Env where
  /-- The lookup `viper.GetString`. -/
  viperGetString : String → String
  /-- The error `tofu.LoadRunningStatusMap` returns, `none` for `nil`. -/
  loadErr : Option String
  /-- The error `tofu.SaveRunningStatusMap` returns, `none` for `nil`. -/
  saveErr : Option String
  /-- The value `e.Start` returns; `none` when it never returns. -/
  startResult : Option StartResult
  /-- Whether a shutdown signal arrives, so that the context gets done. -/
  signalled : Bool
  /-- The error `e.Shutdown` returns, `none` for `nil`. -/
  shutdownErr : Option String
  /-- When the shutdown goroutine panics, its deferred `wg.Done` still runs
  before the process dies: the number of steps the woken main goroutine gets
  to take in that time. -/
  crashProgress : Nat := 0
  /-- When the main goroutine panics, its deferred `stop` cancels the context,
  which wakes the shutdown goroutine if no signal has: the number of steps
  that goroutine gets to take before the process dies. By default it gets to
  its end. -/
  stopProgress : Nat := 8

/-- How an execution of `RunServer` ends. -/
inductive Ending
  /-- `RunServer` returns, after its deferred calls. -/
  | returned
  /-- The main goroutine panics: the deferred calls run, then the process dies. -/
  | panicked
  /-- The call `log.Fatal` ends the process; deferred calls do not run. -/
  | exited (code : Nat)
  /-- The shutdown goroutine panics and the process dies with it, whatever the
  main goroutine has reached by then. -/
  | crashed
  /-- The call `wg.Wait` never returns: no signal arrives. -/
  | blocked
  /-- The call `e.Start` never returns: the server keeps serving. -/
  | serving
deriving DecidableEq, Repr

/-- An execution of `RunServer`: the events of the main goroutine in program
order, those of the shutdown goroutine, and the way it ends. The event
`wgWait` of the main goroutine comes after `wgDone` of the shutdown
goroutine. -/
structure Run where
  main : List Event
  watcher : List Event
  ending : Ending
deriving DecidableEq, Repr

/-- The constant `website`. -/
def website : String := " https://github.com/cloud-barista/mc-terrarium"

/-- The constant `banner`. -/
def banner : String :=
  "    \n\n ██████╗ ███████╗ █████╗ ██████╗ ██╗   ██╗\n ██╔══██╗██╔════╝██╔══██╗██╔══██╗╚██╗ ██╔╝\n ██████╔╝█████╗  ███████║██║  ██║ ╚████╔╝ \n ██╔══██╗██╔══╝  ██╔══██║██║  ██║  ╚██╔╝  \n ██║  ██║███████╗██║  ██║██████╔╝   ██║   \n ╚═╝  ╚═╝╚══════╝╚═╝  ╚═╝╚═════╝    ╚═╝   \n\n Computing Infrastructure Migration Technology\n ________________________________________________"

/-- The output of `fmt.Printf(infoColor, s)`. -/
def infoColor (s : String) : String := "\x1b[1;34m" ++ s ++ "\x1b[0m"

/-- The output of `fmt.Printf(noticeColor, s)`. -/
def noticeColor (s : String) : String := "\x1b[1;36m" ++ s ++ "\x1b[0m"

/-- The deferred closure of `RunServer`: it calls `tofu.SaveRunningStatusMap`
and logs the error, if any. -/
def deferredSave (env : Env) : List Event :=
  Event.SaveRunningStatusMap ::
    (match env.saveErr with
     | some err => [Event.logError err "Failed to save running status map"]
     | none => [])

/-- The deferred calls of `RunServer` in the order they run: last deferred
first, so `stop` before the save. -/
def deferredCalls (env : Env) : List Event :=
  Event.stop :: deferredSave env

/-- The goroutine `RunServer` starts before `e.Start`. It blocks until the
context of `signal.NotifyContext` is done: a signal arrives, or `stop` is
called, which `RunServer` defers, so that it is called when the main goroutine
unwinds (`stopped`). Then it shuts the server down; `cancel` and `wg.Done` are
deferred. The result also tells whether the goroutine finished without panic. -/
def shutdownGoroutine (env : Env) (stopped : Bool) : List Event × Option Bool :=
  if env.signalled || stopped then
    let head := [Event.ctxDone, Event.print "\n[Stop] mc-terrarium REST API server\n",
      Event.logInfo "stopping mc-terrarium REST API server", Event.withTimeout 3,
      Event.shutdown]
    match env.shutdownErr with
    | some err => (head ++ [Event.loggerPanic err, Event.cancel, Event.wgDone], some false)
    | none => (head ++ [Event.cancel, Event.wgDone], some true)
  else
    ([], none)

/-- Lines 96 to 126 of `RunServer`: the load of the running-status map and
the first middlewares. -/
def startupEvents (env : Env) : List Event :=
  [Event.logInfo "Setting Tofu command utility", Event.LoadRunningStatusMap] ++
  (match env.loadErr with
   | some err => [Event.logWarn err]
   | none => []) ++
  [Event.logInfo "Setting mc-terrarium REST API server",
   Event.echoNew,
   Event.use Middleware.Zerologger,
   Event.use Middleware.Recover,
   Event.use (Middleware.RateLimiter 20),
   Event.use Middleware.RequestID,
   Event.hideBanner]

/-- Lines 135 to 242 of `RunServer`, reached when `allowedOrigins` is not
empty: CORS, basic authentication, the routes, the shutdown goroutine and
the call of `e.Start`. -/
def serveEvents (env : Env) (port : String) : List Event :=
  let allowedOrigins := env.viperGetString "api.allow.origins"
  let enableAuth : Bool := env.viperGetString "api.auth.enabled" == "true"
  let apiUser := env.viperGetString "api.username"
  let apiPass := env.viperGetString "api.password"
  let selfEndpoint := env.viperGetString "self.endpoint"
  let apidashboard := " http://" ++ selfEndpoint ++ "/terrarium/api"
  [Event.use (Middleware.CORS [allowedOrigins] ["GET", "PUT", "POST", "DELETE"])] ++
  (if enableAuth then [Event.use (Middleware.BasicAuth apiUser apiPass)] else []) ++
  [Event.print "\n \n \n",
   Event.print banner,
   Event.print "\n \n",
   Event.print "\n \n",
   Event.print (infoColor website),
   Event.print "\n \n \n",
   Event.GET "/terrarium/api" Handler.swaggerRedirect,
   Event.GET "/terrarium/api/" Handler.swaggerRedirect,
   Event.GET "/terrarium/api/*" Handler.echoSwaggerWrapHandler,
   Event.GET "/terrarium/readyz" Handler.Readyz,
   Event.GET "/terrarium/httpVersion" Handler.HTTPVersion,
   Event.GET "/terrarium/tofuVersion" Handler.TofuVersion,
   Event.group "/terrarium",
   Event.RegisterRoutesForTestEnv "/terrarium",
   Event.RegisterRoutesForRG "/terrarium",
   Event.RegisterRoutesForVPN "/terrarium",
   Event.group "/terrarium/sample",
   Event.RegisterSampleRoutes "/terrarium/sample"] ++
  (if enableAuth then
    [Event.print (" Access to API dashboard" ++ " (username: " ++ apiUser ++
      " / password: " ++ apiPass ++ ")" ++ "\n")]
   else []) ++
  [Event.print (noticeColor apidashboard),
   Event.print "\n \n",
   Event.notifyContext,
   Event.wgAdd 1,
   Event.go,
   Event.logInfo "starting mc-terrarium REST API server",
   Event.setReady true,
   Event.start (":" ++ port)]

/-- The function `RunServer`. The deferred save is registered right after
the load; `log.Fatal` ends the process without running it, a panic of the
main goroutine and a normal return both run the deferred calls. The first of
them is `stop`: when the main goroutine panics after a failed `e.Start`, it
wakes the shutdown goroutine, which takes `stopProgress` of its steps before
the process dies by that panic. (Should `e.Shutdown` fail there, that goroutine
panics as well and the process dies by the panic that is through first; the
execution given is the one where the main goroutine is.) When the shutdown
goroutine panics while the main goroutine waits, the process dies with it; the
main goroutine, woken by the deferred `wg.Done` of that goroutine, takes
`crashProgress` of its remaining steps before that. -/
def RunServer (env : Env) (port : String) : Run :=
  let allowedOrigins := env.viperGetString "api.allow.origins"
  if allowedOrigins = "" then
    { main := startupEvents env ++
        [Event.logFatal ("allow_ORIGINS env variable for CORS is " ++ allowedOrigins ++
          ". Please provide a proper value and source setup.env again. EXITING...")],
      watcher := [],
      ending := Ending.exited 1 }
  else
    let served := startupEvents env ++ serveEvents env port
    let watcher := shutdownGoroutine env false
    match env.startResult with
    | none =>
      { main := served, watcher := watcher.1, ending := Ending.serving }
    | some (StartResult.other msg) =>
      { main := served ++ [Event.startReturn (StartResult.other msg),
          Event.loggerPanic "shuttig down the server"] ++ deferredCalls env,
        watcher := (shutdownGoroutine env true).1.take env.stopProgress,
        ending := Ending.panicked }
    | some result =>
      match watcher.2 with
      | some true =>
        { main := served ++ [Event.startReturn result, Event.wgWait] ++ deferredCalls env,
          watcher := watcher.1,
          ending := Ending.returned }
      | some false =>
        { main := served ++ [Event.startReturn result] ++
            (Event.wgWait :: deferredCalls env).take env.crashProgress,
          watcher := watcher.1,
          ending := Ending.crashed }
      | none =>
        { main := served ++ [Event.startReturn result],
          watcher := watcher.1,
          ending := Ending.blocked }

/-! ## The generated documentation (`docs.go`) -/

/-- JSON values, as far as `docTemplate` uses them. `action` is a template
action that stands where a value is expected. -/
inductive JSON
  | str (s : String)
  | bool (b : Bool)
  | arr (items : List JSON)
  | obj (members : List (String × JSON))
  | action (text : String)

/-- The members of an object, in the order they are written. -/
def JSON.members : JSON → List (String × JSON)
  | .obj ms => ms
  | _ => []

/-- The items of an array. -/
def JSON.items : JSON → List JSON
  | .arr xs => xs
  | _ => []

/-- The member of an object with the given name. -/
def JSON.get (j : JSON) (name : String) : Option JSON :=
  (j.members.find? (fun m => decide (m.1 = name))).map Prod.snd

/-- The string a value holds. -/
def JSON.string : JSON → Option String
  | .str s => some s
  | _ => none

def docTemplate : JSON :=
  .obj [
    ("schemes", .action "\x7b\x7b marshal .Schemes \x7d\x7d"),
    ("swagger", .str "2.0"),
    ("info", .obj [
      ("description", .str "\x7b\x7bescape .Description\x7d\x7d"),
      ("title", .str "\x7b\x7b.Title\x7d\x7d"),
      ("contact", .obj [
        ("name", .str "API Support"),
        ("url", .str "http://cloud-barista.github.io"),
        ("email", .str "contact-to-cloud-barista@googlegroups.com")]),
      ("license", .obj [
        ("name", .str "Apache 2.0"),
        ("url", .str "http://www.apache.org/licenses/LICENSE-2.0.html")]),
      ("version", .str "\x7b\x7b.Version\x7d\x7d")]),
    ("host", .str "\x7b\x7b.Host\x7d\x7d"),
    ("basePath", .str "\x7b\x7b.BasePath\x7d\x7d"),
    ("paths", .obj [
      ("/health", .obj [
        ("get", .obj [
          ("description", .str "Check API server is running"),
          ("consumes", .arr [.str "application/json"]),
          ("produces", .arr [.str "application/json"]),
          ("tags", .arr [.str "[System] Utility"]),
          ("summary", .str "Check API server is running"),
          ("responses", .obj [
            ("200", .obj [
              ("description", .str "OK"),
              ("schema", .obj [
                ("$ref", .str "#/definitions/models.Response")])]),
            ("503", .obj [
              ("description", .str "Service Unavailable"),
              ("schema", .obj [
                ("$ref", .str "#/definitions/models.Response")])])])])]),
      ("/httpVersion", .obj [
        ("get", .obj [
          ("description", .str "Checks and logs the HTTP version of the incoming request to the server console."),
          ("consumes", .arr [.str "application/json"]),
          ("produces", .arr [.str "application/json"]),
          ("tags", .arr [.str "[System] Utility"]),
          ("summary", .str "Check HTTP version of incoming request"),
          ("responses", .obj [
            ("200", .obj [
              ("description", .str "OK"),
              ("schema", .obj [
                ("$ref", .str "#/definitions/models.Response")])]),
            ("404", .obj [
              ("description", .str "Not Found"),
              ("schema", .obj [
                ("$ref", .str "#/definitions/models.Response")])]),
            ("500", .obj [
              ("description", .str "Internal Server Error"),
              ("schema", .obj [
                ("$ref", .str "#/definitions/models.Response")])])])])]),
      ("/rg/{resourceGroupId}", .obj [
        ("delete", .obj [
          ("description", .str "Clear the entire directories and configuration files"),
          ("consumes", .arr [.str "application/json"]),
          ("produces", .arr [.str "application/json"]),
          ("tags", .arr [.str "[ResourceGroup] Resource group"]),
          ("summary", .str "Clear the entire directories and configuration files"),
          ("parameters", .arr [
            .obj [
              ("type", .str "string"),
              ("default", .str "rg-01"),
              ("description", .str "Resource group ID"),
              ("name", .str "ResourceGroupId"),
              ("in", .str "path"),
              ("required", .bool true)]]),
          ("responses", .obj [
            ("200", .obj [
              ("description", .str "OK"),
              ("schema", .obj [
                ("$ref", .str "#/definitions/models.Response")])]),
            ("400", .obj [
              ("description", .str "Bad Request"),
              ("schema", .obj [
                ("$ref", .str "#/definitions/models.Response")])]),
            ("503", .obj [
              ("description", .str "Service Unavailable"),
              ("schema", .obj [
                ("$ref", .str "#/definitions/models.Response")])])])])]),
      ("/rg/{resourceGroupId}/vpn/gcp-aws", .obj [
        ("post", .obj [
          ("description", .str "Create network resources for VPN tunnel in GCP and AWS"),
          ("consumes", .arr [.str "application/json"]),
          ("produces", .arr [.str "application/json"]),
          ("tags", .arr [.str "[VPN] GCP to AWS VPN tunnel configuration"]),
          ("summary", .str "Create network resources for VPN tunnel in GCP and AWS"),
          ("parameters", .arr [
            .obj [
              ("type", .str "string"),
              ("default", .str "rg-01"),
              ("description", .str "Resource group ID"),
              ("name", .str "ResourceGroupId"),
              ("in", .str "path"),
              ("required", .bool true)]]),
          ("responses", .obj [
            ("201", .obj [
              ("description", .str "Created"),
              ("schema", .obj [
                ("$ref", .str "#/definitions/models.Response")])]),
            ("400", .obj [
              ("description", .str "Bad Request"),
              ("schema", .obj [
                ("$ref", .str "#/definitions/models.Response")])]),
            ("503", .obj [
              ("description", .str "Service Unavailable"),
              ("schema", .obj [
                ("$ref", .str "#/definitions/models.Response")])])])]),
        ("delete", .obj [
          ("description", .str "Destroy network resources that were used to configure GCP as an AWS VPN tunnel"),
          ("consumes", .arr [.str "application/json"]),
          ("produces", .arr [.str "application/json"]),
          ("tags", .arr [.str "[VPN] GCP to AWS VPN tunnel configuration"]),
          ("summary", .str "Destroy network resources that were used to configure GCP as an AWS VPN tunnel"),
          ("parameters", .arr [
            .obj [
              ("type", .str "string"),
              ("default", .str "rg-01"),
              ("description", .str "Resource group ID"),
              ("name", .str "ResourceGroupId"),
              ("in", .str "path"),
              ("required", .bool true)]]),
          ("responses", .obj [
            ("200", .obj [
              ("description", .str "OK"),
              ("schema", .obj [
                ("$ref", .str "#/definitions/models.Response")])]),
            ("400", .obj [
              ("description", .str "Bad Request"),
              ("schema", .obj [
                ("$ref", .str "#/definitions/models.Response")])]),
            ("503", .obj [
              ("description", .str "Service Unavailable"),
              ("schema", .obj [
                ("$ref", .str "#/definitions/models.Response")])])])])]),
      ("/rg/{resourceGroupId}/vpn/gcp-aws/", .obj [
        ("delete", .obj [
          ("description", .str "Clear the entire directory and configuration files"),
          ("consumes", .arr [.str "application/json"]),
          ("produces", .arr [.str "application/json"]),
          ("tags", .arr [.str "[VPN] GCP to AWS VPN tunnel configuration"]),
          ("summary", .str "Clear the entire directory and configuration files"),
          ("parameters", .arr [
            .obj [
              ("type", .str "string"),
              ("default", .str "rg-01"),
              ("description", .str "Resource group ID"),
              ("name", .str "ResourceGroupId"),
              ("in", .str "path"),
              ("required", .bool true)]]),
          ("responses", .obj [
            ("200", .obj [
              ("description", .str "OK"),
              ("schema", .obj [
                ("$ref", .str "#/definitions/models.Response")])]),
            ("400", .obj [
              ("description", .str "Bad Request"),
              ("schema", .obj [
                ("$ref", .str "#/definitions/models.Response")])]),
            ("503", .obj [
              ("description", .str "Service Unavailable"),
              ("schema", .obj [
                ("$ref", .str "#/definitions/models.Response")])])])])]),
      ("/rg/{resourceGroupId}/vpn/gcp-aws/blueprint", .obj [
        ("post", .obj [
          ("description", .str "Create a blueprint to configure GCP to AWS VPN tunnels"),
          ("consumes", .arr [.str "application/json"]),
          ("produces", .arr [.str "application/json"]),
          ("tags", .arr [.str "[VPN] GCP to AWS VPN tunnel configuration"]),
          ("summary", .str "Create a blueprint to configure GCP to AWS VPN tunnels"),
          ("parameters", .arr [
            .obj [
              ("description", .str "Parameters requied to create a blueprint to configure GCP to AWS VPN tunnels"),
              ("name", .str "ParamsForBlueprint"),
              ("in", .str "body"),
              ("required", .bool true),
              ("schema", .obj [
                ("$ref", .str "#/definitions/handlers.CreateBluprintOfGcpAwsVpnRequest")])]]),
          ("responses", .obj [
            ("201", .obj [
              ("description", .str "Created"),
              ("schema", .obj [
                ("$ref", .str "#/definitions/models.Response")])]),
            ("400", .obj [
              ("description", .str "Bad Request"),
              ("schema", .obj [
                ("$ref", .str "#/definitions/models.Response")])]),
            ("503", .obj [
              ("description", .str "Service Unavailable"),
              ("schema", .obj [
                ("$ref", .str "#/definitions/models.Response")])])])])]),
      ("/rg/{resourceGroupId}/vpn/gcp-aws/init", .obj [
        ("post", .obj [
          ("description", .str "Initialize GCP and AWS to configure VPN tunnels"),
          ("consumes", .arr [.str "application/json"]),
          ("produces", .arr [.str "application/json"]),
          ("tags", .arr [.str "[VPN] GCP to AWS VPN tunnel configuration"]),
          ("summary", .str "Initialize GCP and AWS to configure VPN tunnels"),
          ("parameters", .arr [
            .obj [
              ("description", .str "Init GCP and AWS"),
              ("name", .str "InitCSPs"),
              ("in", .str "body"),
              ("required", .bool true),
              ("schema", .obj [
                ("$ref", .str "#/definitions/handlers.InitGcpAndAwsForVpnTunnelRequest")])]]),
          ("responses", .obj [
            ("201", .obj [
              ("description", .str "Created"),
              ("schema", .obj [
                ("$ref", .str "#/definitions/models.Response")])]),
            ("400", .obj [
              ("description", .str "Bad Request"),
              ("schema", .obj [
                ("$ref", .str "#/definitions/models.Response")])]),
            ("503", .obj [
              ("description", .str "Service Unavailable"),
              ("schema", .obj [
                ("$ref", .str "#/definitions/models.Response")])])])])]),
      ("/rg/{resourceGroupId}/vpn/gcp-aws/plan", .obj [
        ("post", .obj [
          ("description", .str "Show changes required by the current blueprint to configure GCP to AWS VPN tunnels"),
          ("consumes", .arr [.str "application/json"]),
          ("produces", .arr [.str "application/json"]),
          ("tags", .arr [.str "[VPN] GCP to AWS VPN tunnel configuration"]),
          ("summary", .str "Show changes required by the current blueprint to configure GCP to AWS VPN tunnels"),
          ("parameters", .arr [
            .obj [
              ("type", .str "string"),
              ("default", .str "rg-01"),
              ("description", .str "Resource group ID"),
              ("name", .str "ResourceGroupId"),
              ("in", .str "path"),
              ("required", .bool true)]]),
          ("responses", .obj [
            ("200", .obj [
              ("description", .str "OK"),
              ("schema", .obj [
                ("$ref", .str "#/definitions/models.Response")])]),
            ("400", .obj [
              ("description", .str "Bad Request"),
              ("schema", .obj [
                ("$ref", .str "#/definitions/models.Response")])]),
            ("503", .obj [
              ("description", .str "Service Unavailable"),
              ("schema", .obj [
                ("$ref", .str "#/definitions/models.Response")])])])])]),
      ("/rg/{resourceGroupId}/vpn/gcp-aws/state", .obj [
        ("get", .obj [
          ("description", .str "Get the current state of a saved plan to configure GCP to AWS VPN tunnels"),
          ("consumes", .arr [.str "application/json"]),
          ("produces", .arr [.str "application/json"]),
          ("tags", .arr [.str "[VPN] GCP to AWS VPN tunnel configuration"]),
          ("summary", .str "Get the current state of a saved plan to configure GCP to AWS VPN tunnels"),
          ("parameters", .arr [
            .obj [
              ("type", .str "string"),
              ("default", .str "rg-01"),
              ("description", .str "Resource group ID"),
              ("name", .str "ResourceGroupId"),
              ("in", .str "path"),
              ("required", .bool true)]]),
          ("responses", .obj [
            ("200", .obj [
              ("description", .str "OK"),
              ("schema", .obj [
                ("$ref", .str "#/definitions/models.Response")])]),
            ("400", .obj [
              ("description", .str "Bad Request"),
              ("schema", .obj [
                ("$ref", .str "#/definitions/models.Response")])]),
            ("503", .obj [
              ("description", .str "Service Unavailable"),
              ("schema", .obj [
                ("$ref", .str "#/definitions/models.Response")])])])])]),
      ("/sample/users", .obj [
        ("get", .obj [
          ("description", .str "Get information of all users."),
          ("consumes", .arr [.str "application/json"]),
          ("produces", .arr [.str "application/json"]),
          ("tags", .arr [.str "[Sample] Users"]),
          ("summary", .str "Get a list of users"),
          ("responses", .obj [
            ("200", .obj [
              ("description", .str "(sample) This is a sample description for success response in Swagger UI"),
              ("schema", .obj [
                ("$ref", .str "#/definitions/handlers.GetUsersResponse")])]),
            ("404", .obj [
              ("description", .str "User Not Found"),
              ("schema", .obj [
                ("type", .str "object")])])])]),
        ("post", .obj [
          ("description", .str "Create a new user with the given information."),
          ("consumes", .arr [.str "application/json"]),
          ("produces", .arr [.str "application/json"]),
          ("tags", .arr [.str "[Sample] Users"]),
          ("summary", .str "Create a new user"),
          ("parameters", .arr [
            .obj [
              ("description", .str "User information"),
              ("name", .str "User"),
              ("in", .str "body"),
              ("required", .bool true),
              ("schema", .obj [
                ("$ref", .str "#/definitions/handlers.CreateUserRequest")])]]),
          ("responses", .obj [
            ("201", .obj [
              ("description", .str "(Sample) This is a sample description for success response in Swagger UI"),
              ("schema", .obj [
                ("$ref", .str "#/definitions/handlers.GetUserResponse")])]),
            ("400", .obj [
              ("description", .str "Invalid Request"),
              ("schema", .obj [
                ("type", .str "object")])])])])]),
      ("/sample/users/{id}", .obj [
        ("get", .obj [
          ("description", .str "Get information of a user with a specific ID."),
          ("consumes", .arr [.str "application/json"]),
          ("produces", .arr [.str "application/json"]),
          ("tags", .arr [.str "[Sample] Users"]),
          ("summary", .str "Get specific user information"),
          ("parameters", .arr [
            .obj [
              ("type", .str "integer"),
              ("description", .str "User ID"),
              ("name", .str "id"),
              ("in", .str "path"),
              ("required", .bool true)]]),
          ("responses", .obj [
            ("200", .obj [
              ("description", .str "(Sample) This is a sample description for success response in Swagger UI"),
              ("schema", .obj [
                ("$ref", .str "#/definitions/handlers.GetUserResponse")])]),
            ("404", .obj [
              ("description", .str "User Not Found"),
              ("schema", .obj [
                ("type", .str "object")])])])]),
        ("put", .obj [
          ("description", .str "Update a user with the given information."),
          ("consumes", .arr [.str "application/json"]),
          ("produces", .arr [.str "application/json"]),
          ("tags", .arr [.str "[Sample] Users"]),
          ("summary", .str "Update a user"),
          ("parameters", .arr [
            .obj [
              ("type", .str "integer"),
              ("description", .str "User ID"),
              ("name", .str "id"),
              ("in", .str "path"),
              ("required", .bool true)],
            .obj [
              ("description", .str "User information to update"),
              ("name", .str "User"),
              ("in", .str "body"),
              ("required", .bool true),
              ("schema", .obj [
                ("$ref", .str "#/definitions/handlers.UpdateUserRequest")])]]),
          ("responses", .obj [
            ("201", .obj [
              ("description", .str "(Sample) This is a sample description for success response in Swagger UI"),
              ("schema", .obj [
                ("$ref", .str "#/definitions/handlers.UpdateUserResponse")])]),
            ("400", .obj [
              ("description", .str "Invalid Request"),
              ("schema", .obj [
                ("type", .str "object")])])])]),
        ("delete", .obj [
          ("description", .str "Delete a user with the given information."),
          ("consumes", .arr [.str "application/json"]),
          ("produces", .arr [.str "application/json"]),
          ("tags", .arr [.str "[Sample] Users"]),
          ("summary", .str "Delete a user"),
          ("parameters", .arr [
            .obj [
              ("type", .str "integer"),
              ("description", .str "User ID"),
              ("name", .str "id"),
              ("in", .str "path"),
              ("required", .bool true)]]),
          ("responses", .obj [
            ("200", .obj [
              ("description", .str "User deletion successful"),
              ("schema", .obj [
                ("type", .str "string")])]),
            ("400", .obj [
              ("description", .str "Invalid Request"),
              ("schema", .obj [
                ("type", .str "object")])]),
            ("404", .obj [
              ("description", .str "User Not Found"),
              ("schema", .obj [
                ("type", .str "object")])])])]),
        ("patch", .obj [
          ("description", .str "Patch a user with the given information."),
          ("consumes", .arr [.str "application/json"]),
          ("produces", .arr [.str "application/json"]),
          ("tags", .arr [.str "[Sample] Users"]),
          ("summary", .str "Patch a user"),
          ("parameters", .arr [
            .obj [
              ("type", .str "integer"),
              ("description", .str "User ID"),
              ("name", .str "id"),
              ("in", .str "path"),
              ("required", .bool true)],
            .obj [
              ("description", .str "User information to update"),
              ("name", .str "User"),
              ("in", .str "body"),
              ("required", .bool true),
              ("schema", .obj [
                ("$ref", .str "#/definitions/handlers.PatchUserRequest")])]]),
          ("responses", .obj [
            ("200", .obj [
              ("description", .str "(Sample) This is a sample description for success response in Swagger UI"),
              ("schema", .obj [
                ("$ref", .str "#/definitions/handlers.PatchUserResponse")])]),
            ("400", .obj [
              ("description", .str "Invalid Request"),
              ("schema", .obj [
                ("type", .str "object")])]),
            ("404", .obj [
              ("description", .str "User Not Found"),
              ("schema", .obj [
                ("type", .str "object")])])])])]),
      ("/tofuVersion", .obj [
        ("get", .obj [
          ("description", .str "Check Tofu version"),
          ("consumes", .arr [.str "application/json"]),
          ("produces", .arr [.str "application/json"]),
          ("tags", .arr [.str "[System] Utility"]),
          ("summary", .str "Check Tofu version"),
          ("responses", .obj [
            ("200", .obj [
              ("description", .str "OK"),
              ("schema", .obj [
                ("$ref", .str "#/definitions/models.Response")])]),
            ("503", .obj [
              ("description", .str "Service Unavailable"),
              ("schema", .obj [
                ("$ref", .str "#/definitions/models.Response")])])])])])]),
    ("definitions", .obj [
      ("handlers.CreateBluprintOfGcpAwsVpnRequest", .obj [
        ("type", .str "object"),
        ("properties", .obj [
          ("resourceGroupId", .obj [
            ("type", .str "string"),
            ("default", .str "rg-01")]),
          ("tfVars", .obj [
            ("$ref", .str "#/definitions/models.TfVarsGcpAwsVpnTunnel")])])]),
      ("handlers.CreateUserRequest", .obj [
        ("type", .str "object"),
        ("properties", .obj [
          ("email", .obj [
            ("type", .str "string")]),
          ("id", .obj [
            ("type", .str "integer")]),
          ("name", .obj [
            ("type", .str "string")])])]),
      ("handlers.GetUserResponse", .obj [
        ("type", .str "object"),
        ("properties", .obj [
          ("email", .obj [
            ("type", .str "string")]),
          ("id", .obj [
            ("type", .str "integer")]),
          ("name", .obj [
            ("type", .str "string")])])]),
      ("handlers.GetUsersResponse", .obj [
        ("type", .str "object"),
        ("properties", .obj [
          ("users", .obj [
            ("type", .str "array"),
            ("items", .obj [
              ("$ref", .str "#/definitions/models.MyUser")])])])]),
      ("handlers.InitGcpAndAwsForVpnTunnelRequest", .obj [
        ("type", .str "object"),
        ("properties", .obj [
          ("resourceGroupId", .obj [
            ("type", .str "string"),
            ("default", .str "rg-01")])])]),
      ("handlers.PatchUserRequest", .obj [
        ("type", .str "object"),
        ("properties", .obj [
          ("email", .obj [
            ("type", .str "string")]),
          ("id", .obj [
            ("type", .str "integer")]),
          ("name", .obj [
            ("type", .str "string")])])]),
      ("handlers.PatchUserResponse", .obj [
        ("type", .str "object"),
        ("properties", .obj [
          ("email", .obj [
            ("type", .str "string")]),
          ("id", .obj [
            ("type", .str "integer")]),
          ("name", .obj [
            ("type", .str "string")])])]),
      ("handlers.UpdateUserRequest", .obj [
        ("type", .str "object"),
        ("properties", .obj [
          ("email", .obj [
            ("type", .str "string")]),
          ("id", .obj [
            ("type", .str "integer")]),
          ("name", .obj [
            ("type", .str "string")])])]),
      ("handlers.UpdateUserResponse", .obj [
        ("type", .str "object"),
        ("properties", .obj [
          ("email", .obj [
            ("type", .str "string")]),
          ("id", .obj [
            ("type", .str "integer")]),
          ("name", .obj [
            ("type", .str "string")])])]),
      ("models.MyUser", .obj [
        ("type", .str "object"),
        ("properties", .obj [
          ("email", .obj [
            ("type", .str "string")]),
          ("id", .obj [
            ("type", .str "integer")]),
          ("name", .obj [
            ("type", .str "string")])])]),
      ("models.Response", .obj [
        ("type", .str "object"),
        ("properties", .obj [
          ("success", .obj [
            ("type", .str "boolean"),
            ("example", .bool true)]),
          ("text", .obj [
            ("type", .str "string"),
            ("example", .str "Any text")])])]),
      ("models.TfVarsGcpAwsVpnTunnel", .obj [
        ("type", .str "object"),
        ("properties", .obj [
          ("my-imported-aws-subnet-id", .obj [
            ("type", .str "string")]),
          ("my-imported-aws-vpc-id", .obj [
            ("type", .str "string")]),
          ("my-imported-gcp-subnet-name", .obj [
            ("type", .str "string")]),
          ("my-imported-gcp-vpc-name", .obj [
            ("type", .str "string")])])])]),
    ("securityDefinitions", .obj [
      ("BasicAuth", .obj [
        ("type", .str "basic")])])]

/-- One documented operation: its path, its HTTP method and its object. -/
structure Operation where
  path : String
  method : String
  body : JSON

/-- The operations a document lists under `paths`. -/
def operations (doc : JSON) : List Operation :=
  (((doc.get "paths").getD (.obj [])).members).flatMap (fun p =>
    p.2.members.map (fun o => { path := p.1, method := o.1, body := o.2 }))

/-- The schema a response refers to through `schema.$ref`. -/
def schemaRef (response : JSON) : Option String :=
  ((response.get "schema").bind (fun s => s.get "$ref")).bind JSON.string

/-- The responses of an operation: status code and referenced schema. -/
def responses (op : Operation) : List (String × Option String) :=
  (((op.body.get "responses").getD (.obj [])).members).map (fun r => (r.1, schemaRef r.2))

/-- Whether `s` starts with `p`. -/
def startsWith (s p : String) : Bool :=
  p.toList.isPrefixOf s.toList

/-- The definition of a schema under `definitions`. -/
def definition (doc : JSON) (name : String) : Option JSON :=
  (doc.get "definitions").bind (fun d => d.get name)

/-- The properties of a schema: name and `type`. -/
def properties (schema : JSON) : List (String × Option String) :=
  (((schema.get "properties").getD (.obj [])).members).map
    (fun p => (p.1, (p.2.get "type").bind JSON.string))


/-! ## `SwaggerInfo` (`docs.go`) and the annotations of `RunServer` -/

/-- The fields of `swag.Spec` that `SwaggerInfo` sets. -/
structure Spec where
  Version : String
  Host : String
  BasePath : String
  Schemes : List String
  Title : String
  Description : String
  InfoInstanceName : String
  SwaggerTemplate : JSON
  LeftDelim : String
  RightDelim : String

/-- The variable `SwaggerInfo`. -/
def SwaggerInfo : Spec :=
  { Version := "latest",
    Host := "",
    BasePath := "/mc-net",
    Schemes := [],
    Title := "POC-MC-Net-TF REST API",
    Description := "POC-MC-Net-TF REST API",
    InfoInstanceName := "swagger",
    SwaggerTemplate := docTemplate,
    LeftDelim := "\x7b\x7b",
    RightDelim := "\x7d\x7d" }

/-- The general API annotations a comment block can carry. -/
structure Annotations where
  title : String
  version : String
  description : String
  contactName : String
  contactUrl : String
  contactEmail : String
  licenseName : String
  licenseUrl : String
  basePath : String
  securityDefinitionsBasic : String
deriving DecidableEq, Repr

/-- The annotations written above `RunServer` (lines 80 to 93 of `server.go`). -/
def annotations : Annotations :=
  { title := "Multi-Cloud Terrarium  REST API",
    version := "latest",
    description := "Multi-Cloud Terrarium (mc-terrarium) aims to provide an environment to enrich multi-cloud infrastructure.",
    contactName := "API Support",
    contactUrl := "http://cloud-barista.github.io",
    contactEmail := "contact-to-cloud-barista@googlegroups.com",
    licenseName := "Apache 2.0",
    licenseUrl := "http://www.apache.org/licenses/LICENSE-2.0.html",
    basePath := "/terrarium",
    securityDefinitionsBasic := "BasicAuth" }

/-- The route paths `RunServer` registers itself through `e.GET`, and the
groups it opens for the route packages. -/
def registeredPaths (events : List Event) : List String :=
  events.filterMap (fun e =>
    match e with
    | Event.GET path _ => some path
    | Event.group path => some path
    | _ => none)

/-! ## Observations on the documented operations -/

/-- The HTTP method a key of a path item stands for: the key in upper case. -/
def httpMethod (key : String) : String :=
  String.mk (key.toList.map Char.toUpper)

/-- The `AllowMethods` lists of the CORS middlewares a run of events installs. -/
def corsAllowMethods (events : List Event) : List (List String) :=
  events.filterMap (fun e =>
    match e with
    | Event.use (Middleware.CORS _ methods) => some methods
    | _ => none)

/-- The `AllowOrigins` lists of the CORS middlewares a run of events installs. -/
def corsAllowOrigins (events : List Event) : List (List String) :=
  events.filterMap (fun e =>
    match e with
    | Event.use (Middleware.CORS origins _) => some origins
    | _ => none)

/-- The template variables of a path: the names written between braces. The
second argument holds the name being read, if a brace is open. -/
def pathVariablesAux : List Char → Option (List Char) → List String
  | [], _ => []
  | c :: cs, none =>
    if c = '\x7b' then pathVariablesAux cs (some []) else pathVariablesAux cs none
  | c :: cs, some name =>
    if c = '\x7d' then String.mk name.reverse :: pathVariablesAux cs none
    else pathVariablesAux cs (some (c :: name))

/-- The template variables of a path. -/
def pathVariables (path : String) : List String :=
  pathVariablesAux path.toList none

/-- The names of the parameters an operation declares with the given `in`. -/
def parametersIn (place : String) (op : Operation) : List String :=
  (((op.body.get "parameters").getD (.arr [])).items).filterMap (fun p =>
    if (p.get "in").bind JSON.string = some place then (p.get "name").bind JSON.string
    else none)

/-- Whether an operation declares a path parameter for every template
variable of its path, under exactly that name. -/
def declaresPathVariables (op : Operation) : Bool :=
  (pathVariables op.path).all (fun x => decide (x ∈ parametersIn "path" op))

/-- A path without its trailing `/`, if it has one. -/
def trimTrailingSlash (path : String) : String :=
  match path.toList.reverse with
  | '/' :: rest => String.mk rest.reverse
  | _ => path

/-- Method and path of every operation, as written. -/
def routes (doc : JSON) : List (String × String) :=
  (operations doc).map (fun op => (op.method, op.path))

/-- Method and path of every operation, the path without trailing `/`. -/
def normalisedRoutes (doc : JSON) : List (String × String) :=
  (operations doc).map (fun op => (op.method, trimTrailingSlash op.path))

/-- Whether an event follows the return of `e.Start` in `RunServer`: that
return, the panic of the logger, the return of `wg.Wait`, or a deferred call
with its log line. -/
def pastStart : Event → Bool
  | Event.startReturn _ => true
  | Event.loggerPanic _ => true
  | Event.wgWait => true
  | Event.stop => true
  | Event.SaveRunningStatusMap => true
  | Event.logError _ _ => true
  | _ => false

/-- Whether an event installs the middleware for CORS or for basic
authentication, registers a route or a group of routes, sets readiness, or
is the call or the return of `e.Start`. -/
def pastOriginsCheck : Event → Bool
  | Event.use (Middleware.CORS _ _) => true
  | Event.use (Middleware.BasicAuth _ _) => true
  | Event.GET _ _ => true
  | Event.group _ => true
  | Event.RegisterRoutesForTestEnv _ => true
  | Event.RegisterRoutesForRG _ => true
  | Event.RegisterRoutesForVPN _ => true
  | Event.RegisterSampleRoutes _ => true
  | Event.setReady _ => true
  | Event.start _ => true
  | Event.startReturn _ => true
  | _ => false

/-! ## The rate limiter (`middleware.RateLimiter` with the default memory store)

The middleware and its store are echo's, the limiter is the one of
`golang.org/x/time/rate`. Times are clock readings in nanoseconds, counted from
Go's zero `time.Time`; durations are in nanoseconds. Go keeps the tokens of a
limiter in a `float64`: `Float64` holds the value of a finite `float64`
exactly, and its operations round as IEEE 754 binary64 does. -/

/-- Go `time.Second`: the number of nanoseconds in a second. -/
def Second : Nat := 1000000000

/-- The largest `time.Duration`, at which `Time.Sub` saturates. -/
def maxDuration : Nat := 2 ^ 63 - 1

/-- A finite `float64`, held by its value in units of `2^-1074`, the smallest
positive `float64`: every finite `float64` is a whole number of these units.
Infinities, NaN and the sign of zero are left out: the limiter does not meet
them. -/
structure Float64 where
  units : Int
deriving DecidableEq, Repr

/-- The position of the highest set bit of `n`, the whole part of its binary
logarithm, found by bisection; `n` is below `2^8192`, as every product and
quotient of two finite `float64` taken in units is. -/
def highestBit (n : Nat) : Nat :=
  [4096, 2048, 1024, 512, 256, 128, 64, 32, 16, 8, 4, 2, 1].foldl
    (fun acc k => if n >>> (acc + k) = 0 then acc else acc + k) 0

/-- The rounding of IEEE 754 binary64, to nearest and ties to even, of the
quotient `num / den` taken in units of `2^-1074`: the nearest whole number of
units with at most 53 significant bits. The denominator is positive. Overflow
to infinity is left out: the values of the limiter stay far below it. -/
def roundUnits (num den : Nat) : Nat :=
  let k := highestBit num - highestBit den
  let sh0 := k - 52
  let sh := if sh0 > 0 ∧ num / (den <<< sh0) < 2 ^ 52 then sh0 - 1 else sh0
  let d := den <<< sh
  let q := num / d
  let r := num % d
  let up := if 2 * r > d ∨ (2 * r = d ∧ q % 2 = 1) then 1 else 0
  (q + up) <<< sh

/-- The `float64` nearest to `num / den` units, with its sign. -/
def Float64.round (negative : Bool) (num den : Nat) : Float64 :=
  ⟨if negative then -(roundUnits num den : Int) else (roundUnits num den : Int)⟩

/-- The conversion `float64(n)` of a whole number. -/
def Float64.ofInt (n : Int) : Float64 :=
  Float64.round (decide (n < 0)) (n.natAbs <<< 1074) 1

/-- The sum `x + y` of two `float64`. -/
def Float64.add (x y : Float64) : Float64 :=
  Float64.round (decide (x.units + y.units < 0)) (x.units + y.units).natAbs 1

/-- The difference `x - y` of two `float64`. -/
def Float64.sub (x y : Float64) : Float64 :=
  Float64.round (decide (x.units - y.units < 0)) (x.units - y.units).natAbs 1

/-- The product `x * y` of two `float64`. -/
def Float64.mul (x y : Float64) : Float64 :=
  Float64.round (decide (x.units < 0) != decide (y.units < 0))
    (x.units.natAbs * y.units.natAbs) (1 <<< 1074)

/-- The quotient `x / y` of two `float64`, the divisor not zero. -/
def Float64.div (x y : Float64) : Float64 :=
  Float64.round (decide (x.units < 0) != decide (y.units < 0))
    (x.units.natAbs <<< 1074) y.units.natAbs

/-- The opposite `-x` of a `float64`. -/
def Float64.neg (x : Float64) : Float64 :=
  ⟨-x.units⟩

/-- The comparison `x < y` of two `float64`. -/
def Float64.lt (x y : Float64) : Bool :=
  decide (x.units < y.units)

/-- The conversion `time.Duration(x)` of a `float64` to a whole number: the
fraction is dropped. -/
def Float64.toInt (x : Float64) : Int :=
  if x.units < 0 then -((x.units.natAbs >>> 1074 : Nat) : Int)
  else ((x.units.natAbs >>> 1074 : Nat) : Int)

/-- Go `Duration.Seconds`: the whole seconds plus the remaining nanoseconds
divided by `1e9`. -/
def Seconds (d : Nat) : Float64 :=
  (Float64.ofInt (d / Second : Nat)).add
    ((Float64.ofInt (d % Second : Nat)).div (Float64.ofInt 1000000000))

/-- Go `Limit.tokensFromDuration`: the tokens gained in a duration at `limit`
tokens per second. The limit is a whole number here, as the server's is. -/
def tokensFromDuration (limit : Nat) (d : Nat) : Float64 :=
  (Seconds d).mul (Float64.ofInt limit)

/-- Go `Limit.durationFromTokens`: the time it takes to gain the tokens at
`limit` tokens per second, in whole nanoseconds. -/
def durationFromTokens (limit : Nat) (tokens : Float64) : Int :=
  ((Float64.ofInt (Second : Nat)).mul (tokens.div (Float64.ofInt limit))).toInt

/-- The limiter of `golang.org/x/time/rate`: `limit` tokens per second, a
bucket of `burst` tokens, and the tokens held at time `last`. -/
structure Limiter where
  limit : Nat
  burst : Nat
  tokens : Float64
  last : Nat
deriving DecidableEq, Repr

/-- Go `rate.NewLimiter`: the limit and the burst are set, the tokens are
zero and `last` is the zero time. -/
def NewLimiter (limit burst : Nat) : Limiter :=
  { limit := limit, burst := burst, tokens := Float64.ofInt 0, last := 0 }

/-- Go `Limiter.advance`: the tokens held at time `t`. The time elapsed since
`last`, as `Time.Sub` gives it, refills the bucket, up to `burst`. -/
def Limiter.advance (lim : Limiter) (t : Nat) : Float64 :=
  let last := if t < lim.last then t else lim.last
  let elapsed := if t - last > maxDuration then maxDuration else t - last
  let delta := tokensFromDuration lim.limit elapsed
  let tokens := lim.tokens.add delta
  if (Float64.ofInt lim.burst).lt tokens then Float64.ofInt lim.burst else tokens

/-- Go `Limiter.reserveN`, for a limit that is neither zero nor infinite: the
tokens at time `t` less `n`; if that is negative, the time to wait for the
missing tokens; the reservation is granted when `n` is within the burst and
the wait within `maxFutureReserve`, and only then the limiter is updated. -/
def Limiter.reserveN (lim : Limiter) (t n : Nat) (maxFutureReserve : Int) : Bool × Limiter :=
  let tokens := (lim.advance t).sub (Float64.ofInt n)
  let waitDuration : Int :=
    if tokens.lt (Float64.ofInt 0) then durationFromTokens lim.limit tokens.neg else 0
  if n ≤ lim.burst ∧ waitDuration ≤ maxFutureReserve then
    (true, { lim with last := t, tokens := tokens })
  else
    (false, lim)

/-- Go `Limiter.AllowN`: whether `n` events may happen at time `t`, without
waiting. -/
def Limiter.AllowN (lim : Limiter) (t n : Nat) : Bool × Limiter :=
  lim.reserveN t n 0

/-- The `Visitor` of echo's memory store: a limiter and the time it was last
seen. -/
structure Visitor where
  limiter : Limiter
  lastSeen : Nat
deriving DecidableEq, Repr

/-- The `RateLimiterMemoryStore` of echo: one visitor per identifier. -/
structure RateLimiterMemoryStore where
  visitors : String → Option Visitor
  rate : Nat
  burst : Nat
  expiresIn : Nat
  lastCleanup : Nat

/-- The default `ExpiresIn` of the memory store: three minutes. -/
def defaultExpiresIn : Nat := 3 * 60 * Second

/-- Echo `NewRateLimiterMemoryStore(rate)`, created at time `now`: the burst
defaults to the rate, the expiry to three minutes, and no visitor is known. -/
def NewRateLimiterMemoryStore (rate now : Nat) : RateLimiterMemoryStore :=
  { visitors := fun _ => none,
    rate := rate,
    burst := rate,
    expiresIn := defaultExpiresIn,
    lastCleanup := now }

/-- Echo `cleanupStaleVisitors`: the visitors not seen for longer than
`expiresIn` are forgotten. -/
def RateLimiterMemoryStore.cleanupStaleVisitors (store : RateLimiterMemoryStore) (now : Nat) :
    RateLimiterMemoryStore :=
  { store with
    visitors := fun id =>
      match store.visitors id with
      | some v => if now - v.lastSeen > store.expiresIn then none else some v
      | none => none,
    lastCleanup := now }

/-- The limiter of an identifier: the one of its visitor, or a new limiter
for an identifier that has no visitor. -/
def RateLimiterMemoryStore.limiterOf (store : RateLimiterMemoryStore)
    (identifier : String) : Limiter :=
  match store.visitors identifier with
  | some v => v.limiter
  | none => NewLimiter store.rate store.burst

/-- Echo `RateLimiterMemoryStore.Allow` at time `now`: the visitor of the
identifier is looked up, or created with a new limiter; it is marked as seen;
stale visitors are cleaned up when the last cleanup is older than `expiresIn`;
then the visitor's limiter decides. -/
def RateLimiterMemoryStore.Allow (store : RateLimiterMemoryStore)
    (identifier : String) (now : Nat) : Bool × RateLimiterMemoryStore :=
  let limiter := store.limiterOf identifier
  let seen : RateLimiterMemoryStore :=
    { store with
      visitors := fun id =>
        if id = identifier then some { limiter := limiter, lastSeen := now }
        else store.visitors id }
  let cleaned :=
    if now - store.lastCleanup > store.expiresIn then seen.cleanupStaleVisitors now else seen
  let decision := limiter.AllowN now 1
  (decision.1,
    { cleaned with
      visitors := fun id =>
        if id = identifier then some { limiter := decision.2, lastSeen := now }
        else cleaned.visitors id })

/-- A request as the rate limiter sees it: its arrival time, the client
address `c.RealIP()` that the default identifier extractor returns, and the
route it asks for. -/
structure Request where
  time : Nat
  realIP : String
  path : String
deriving DecidableEq, Repr

/-- The rate-limiter middleware over a sequence of requests: each request is
let through or rejected by `Allow` on the identifier of its client. -/
def rateLimit (store : RateLimiterMemoryStore) : List Request → List (Request × Bool)
  | [] => []
  | r :: rest =>
    let decision := store.Allow r.realIP r.time
    (r, decision.1) :: rateLimit decision.2 rest

/-- The store of the rate limiter `RunServer` installs, created at `now`:
`middleware.NewRateLimiterMemoryStore(20)`. -/
def serverStore (now : Nat) : RateLimiterMemoryStore :=
  NewRateLimiterMemoryStore 20 now

/-- The number of requests let through with arrival time from `t` to one second
later, over all clients and all routes. -/
def passedInWindow (t : Nat) (log : List (Request × Bool)) : Nat :=
  log.countP (fun d => d.2 && decide (t ≤ d.1.time) && decide (d.1.time ≤ t + Second))

/-- The clock reading of 2024-01-01 00:00:00 UTC. -/
def newYear2024 : Nat := 63839664000 * Second

/-- Twenty requests of each of two clients, all at the same instant, five
seconds after the store was created. -/
def twoClients : List Request :=
  List.replicate 20
    { time := newYear2024 + 5 * Second, realIP := "10.0.0.1", path := "/terrarium/readyz" } ++
  List.replicate 20
    { time := newYear2024 + 5 * Second, realIP := "10.0.0.2", path := "/terrarium/readyz" }

/-- One client: twenty requests at one instant and twenty more, one every
fifty milliseconds, within the second that follows. -/
def oneClient : List Request :=
  List.replicate 20
    { time := newYear2024 + 5 * Second, realIP := "10.0.0.1", path := "/terrarium/tofuVersion" } ++
  (List.range 20).map (fun i =>
    { time := newYear2024 + 5 * Second + (i + 1) * 50000000, realIP := "10.0.0.1",
      path := "/terrarium/tofuVersion" })

/-- One client: twenty requests at one instant, one more a nanosecond short
of fifty milliseconds later, and one more at fifty milliseconds. -/
def oneClientEarly : List Request :=
  List.replicate 20
    { time := newYear2024 + 5 * Second, realIP := "10.0.0.1", path := "/terrarium/tofuVersion" } ++
  [{ time := newYear2024 + 5 * Second + 49999999, realIP := "10.0.0.1",
     path := "/terrarium/tofuVersion" },
   { time := newYear2024 + 5 * Second + 50000000, realIP := "10.0.0.1",
     path := "/terrarium/tofuVersion" }]

/-! ## Workspace manager and orchestrator façade (`pkg/tofu`) -/

/-- Modelled from the spec: the error kinds of the orchestrator (spec 7); the
code of the orchestrator is not part of the sources. -/
inductive OrchestratorError
  | ValidationError
  | OperationInProgress
  | InitRequired
  | NotInitialized
  | EngineExecutionFailed (output : String)
  | Timeout
  | WorkspaceInUse
  | InvalidIdentifier
  | IOError
deriving DecidableEq, Repr

/-- Modelled from the spec: whether an identifier holds a parent-reference
sequence `..` (spec 4.1, `pathFor`, absent from the sources). -/
def hasParentReference : List Char → Bool
  | [] => false
  | c :: rest =>
    (match rest with
     | d :: _ => decide (c = '.') && decide (d = '.')
     | [] => false) || hasParentReference rest

/-- Modelled from the spec: whether an identifier holds a path separator
(spec 4.1, `pathFor`, absent from the sources). -/
def hasPathSeparator (id : String) : Bool :=
  id.toList.any (fun c => decide (c = '/') || decide (c = '\\'))

/-- Modelled from the spec: `pathFor` of the Workspace Manager (spec 4.1,
absent from the sources). An identifier that holds a path separator or a
parent-reference sequence is rejected with `InvalidIdentifier`; otherwise the
path is the scope's subdirectory of the resource group's directory under the
workspace root. -/
def pathFor (root resourceGroupId scope : String) : Except OrchestratorError String :=
  if hasPathSeparator resourceGroupId || hasParentReference resourceGroupId.toList ||
      hasPathSeparator scope || hasParentReference scope.toList then
    .error .InvalidIdentifier
  else
    .ok (root ++ "/" ++ resourceGroupId ++ "/" ++ scope)

/-- Modelled from the spec: the workspace of one `(resourceGroupId, scope)`,
a directory that exists, with the marks the orchestrator checks: whether an
`Init`, a `Plan`, an `Apply` succeeded in it (spec 4.3 and 4.5). -/
structure Workspace where
  resourceGroupId : String
  scope : String
  initialized : Bool
  planned : Bool
  applied : Bool
deriving DecidableEq, Repr

/-- Modelled from the spec: the actions of the IaC Execution Driver (spec 4.3). -/
inductive EngineAction
  | Init
  | Plan
  | Apply
  | Destroy
  | ShowState
deriving DecidableEq, Repr

/-- Modelled from the spec: the result of one run of the engine (spec 4.3). -/
inductive ExecutionResult
  | Succeeded (summary : String)
  | Failed (output : String)
  | Timeout
deriving DecidableEq, Repr

/-- Modelled from the spec: the state the orchestrator of `pkg/tofu` works
on: the running-status map, the workspaces that exist, and the runs of the
engine so far. -/
structure Orchestrator where
  tracker : RunningStatusMap
  workspaces : List Workspace
  engineRuns : List (String × String × EngineAction)
deriving DecidableEq, Repr

/-- The orchestrator before any call: nothing tracked, no workspace, no run. -/
def Orchestrator.initial : Orchestrator :=
  { tracker := [], workspaces := [], engineRuns := [] }

/-- Modelled from the spec: `ensure` of the Workspace Manager (spec 4.1): the
workspace is created if absent. -/
def ensure (ws : List Workspace) (resourceGroupId scope : String) : List Workspace :=
  if ws.any (fun w => decide (w.resourceGroupId = resourceGroupId) && decide (w.scope = scope))
  then ws
  else ws ++ [{ resourceGroupId := resourceGroupId, scope := scope, initialized := false,
                planned := false, applied := false }]

/-- Whether the workspace of the pair exists and holds the mark of a
successful `Init`. -/
def isInitialized (ws : List Workspace) (resourceGroupId scope : String) : Bool :=
  ws.any (fun w => decide (w.resourceGroupId = resourceGroupId) && decide (w.scope = scope) &&
    w.initialized)

/-- Whether the workspace of the pair exists and holds the mark of a
successful `Plan`. -/
def isPlanned (ws : List Workspace) (resourceGroupId scope : String) : Bool :=
  ws.any (fun w => decide (w.resourceGroupId = resourceGroupId) && decide (w.scope = scope) &&
    w.planned)

/-- The workspaces with the workspace of the pair changed by `f`. -/
def updateWorkspace (ws : List Workspace) (resourceGroupId scope : String)
    (f : Workspace → Workspace) : List Workspace :=
  ws.map (fun w =>
    if w.resourceGroupId = resourceGroupId ∧ w.scope = scope then f w else w)

/-- The outcome recorded for a result of the engine. -/
def ExecutionResult.outcome : ExecutionResult → Outcome
  | .Succeeded _ => Outcome.Succeeded
  | .Failed output => Outcome.Failed output
  | .Timeout => Outcome.Failed "Timeout"

/-- What the orchestrator returns for a result of the engine. -/
def ExecutionResult.answer : ExecutionResult → Except OrchestratorError String
  | .Succeeded summary => .ok summary
  | .Failed output => .error (.EngineExecutionFailed output)
  | .Timeout => .error .Timeout

/-- Whether a result of the engine is a success. -/
def ExecutionResult.succeeded : ExecutionResult → Bool
  | .Succeeded _ => true
  | _ => false

/-- Modelled from the spec: `Init` of the Orchestrator Façade (spec 4.5):
acquire the lease for `Init`, ensure the workspace, run `Init`, release. The
result of the engine is given by `result`; `started` and `finished` are the
clock readings at acquire and release. -/
def Orchestrator.Init (s : Orchestrator) (resourceGroupId scope : String)
    (result : ExecutionResult) (started finished : Nat) :
    Except OrchestratorError String × Orchestrator :=
  match acquire s.tracker resourceGroupId scope Action.Init started with
  | .error _ => (.error .OperationInProgress, s)
  | .ok (lease, tracker) =>
    let ws := ensure s.workspaces resourceGroupId scope
    (result.answer,
      { tracker := release tracker lease result.outcome finished,
        workspaces :=
          if result.succeeded then
            updateWorkspace ws resourceGroupId scope (fun w => { w with initialized := true })
          else ws,
        engineRuns := s.engineRuns ++ [(resourceGroupId, scope, EngineAction.Init)] })

/-- Modelled from the spec: `Plan` of the Orchestrator Façade (spec 4.5):
acquire the lease for `Plan`, require a prior `Init`, run `Plan`, release. On
a workspace without the mark of `Init` the engine is not run and the lease is
released with the failure `InitRequired`. -/
def Orchestrator.Plan (s : Orchestrator) (resourceGroupId scope : String)
    (result : ExecutionResult) (started finished : Nat) :
    Except OrchestratorError String × Orchestrator :=
  match acquire s.tracker resourceGroupId scope Action.Plan started with
  | .error _ => (.error .OperationInProgress, s)
  | .ok (lease, tracker) =>
    if isInitialized s.workspaces resourceGroupId scope then
      (result.answer,
        { tracker := release tracker lease result.outcome finished,
          workspaces :=
            if result.succeeded then
              updateWorkspace s.workspaces resourceGroupId scope
                (fun w => { w with planned := true })
            else s.workspaces,
          engineRuns := s.engineRuns ++ [(resourceGroupId, scope, EngineAction.Plan)] })
    else
      (.error .InitRequired,
        { s with tracker := release tracker lease (Outcome.Failed "InitRequired") finished })

/-- Modelled from the spec: `Apply` of the Orchestrator Façade (spec 4.5):
acquire the lease, require a prior `Init` and a prior `Plan`, run `Apply`,
release. A missing `Init` is answered with `InitRequired`; for a missing
`Plan` the spec names no error, and `NotInitialized`, the other sequencing
error, is taken. -/
def Orchestrator.Apply (s : Orchestrator) (resourceGroupId scope : String)
    (result : ExecutionResult) (started finished : Nat) :
    Except OrchestratorError String × Orchestrator :=
  match acquire s.tracker resourceGroupId scope Action.Apply started with
  | .error _ => (.error .OperationInProgress, s)
  | .ok (lease, tracker) =>
    if !isInitialized s.workspaces resourceGroupId scope then
      (.error .InitRequired,
        { s with tracker := release tracker lease (Outcome.Failed "InitRequired") finished })
    else if !isPlanned s.workspaces resourceGroupId scope then
      (.error .NotInitialized,
        { s with tracker := release tracker lease (Outcome.Failed "NotInitialized") finished })
    else
      (result.answer,
        { tracker := release tracker lease result.outcome finished,
          workspaces :=
            if result.succeeded then
              updateWorkspace s.workspaces resourceGroupId scope
                (fun w => { w with applied := true })
            else s.workspaces,
          engineRuns := s.engineRuns ++ [(resourceGroupId, scope, EngineAction.Apply)] })

/-- Modelled from the spec: `Destroy` of the Orchestrator Façade (spec 4.5):
acquire the lease, run `Destroy` without further requirement, release. -/
def Orchestrator.Destroy (s : Orchestrator) (resourceGroupId scope : String)
    (result : ExecutionResult) (started finished : Nat) :
    Except OrchestratorError String × Orchestrator :=
  match acquire s.tracker resourceGroupId scope Action.Destroy started with
  | .error _ => (.error .OperationInProgress, s)
  | .ok (lease, tracker) =>
    (result.answer,
      { tracker := release tracker lease result.outcome finished,
        workspaces :=
          if result.succeeded then
            updateWorkspace s.workspaces resourceGroupId scope
              (fun w => { w with applied := false, planned := false })
          else s.workspaces,
        engineRuns := s.engineRuns ++ [(resourceGroupId, scope, EngineAction.Destroy)] })

/-- Whether a workspace falls under a clear of the resource group, or of one
of its scopes. -/
def underClear (resourceGroupId : String) (scope : Option String) (rg sc : String) : Bool :=
  decide (rg = resourceGroupId) &&
    (match scope with
     | some x => decide (sc = x)
     | none => true)

/-- Modelled from the spec: `ClearWorkspace` of the Orchestrator Façade, which
delegates to `clear` of the Workspace Manager (spec 4.1 and 4.5): it fails
with `WorkspaceInUse` if a `Running` record exists for the resource group (or
for the scope, when one is given), and otherwise removes the directories of
the resource group (or of the scope). -/
def Orchestrator.ClearWorkspace (s : Orchestrator) (resourceGroupId : String)
    (scope : Option String) : Except OrchestratorError Unit × Orchestrator :=
  if s.tracker.any (fun r => underClear resourceGroupId scope r.resourceGroupId r.scope &&
      decide (r.status = Status.Running)) then
    (.error .WorkspaceInUse, s)
  else
    (.ok (),
      { s with workspaces :=
          s.workspaces.filter (fun w => !underClear resourceGroupId scope w.resourceGroupId w.scope) })

/-- One call of the façade, with the result the engine gives if it is run. -/
inductive Call
  | Init (resourceGroupId scope : String) (result : ExecutionResult) (started finished : Nat)
  | Plan (resourceGroupId scope : String) (result : ExecutionResult) (started finished : Nat)
  | Apply (resourceGroupId scope : String) (result : ExecutionResult) (started finished : Nat)
  | Destroy (resourceGroupId scope : String) (result : ExecutionResult) (started finished : Nat)
  | ClearWorkspace (resourceGroupId : String) (scope : Option String)
deriving DecidableEq, Repr

/-- The orchestrator after one call. -/
def Orchestrator.call (s : Orchestrator) : Call → Orchestrator
  | .Init rg scope result started finished => (s.Init rg scope result started finished).2
  | .Plan rg scope result started finished => (s.Plan rg scope result started finished).2
  | .Apply rg scope result started finished => (s.Apply rg scope result started finished).2
  | .Destroy rg scope result started finished => (s.Destroy rg scope result started finished).2
  | .ClearWorkspace rg scope => (s.ClearWorkspace rg scope).2

/-- The orchestrator after a sequence of calls, one after the other, from the
initial state. -/
def runCalls (calls : List Call) : Orchestrator :=
  calls.foldl Orchestrator.call Orchestrator.initial

/-- A lifecycle that ends with a clear of the resource group. -/
def sampleCalls : List Call :=
  [Call.Init "rg-01" "gcp-aws" (ExecutionResult.Succeeded "initialized") 0 1,
   Call.Plan "rg-01" "gcp-aws" (ExecutionResult.Succeeded "2 to add") 2 3,
   Call.ClearWorkspace "rg-01" none]

/-- One move of an execution of the orchestrator: a call of the façade, which
runs from its `acquire` to its `release`, or a change of the running-status
map made meanwhile by the operations of other callers that are in flight
(leases taken, leases released); any map may come out of those. -/
inductive Move
  | call (c : Call)
  | inFlight (tracker : RunningStatusMap)
deriving DecidableEq, Repr

/-- The orchestrator after one move. -/
def Orchestrator.move (s : Orchestrator) : Move → Orchestrator
  | .call c => s.call c
  | .inFlight tracker => { s with tracker := tracker }

/-- The orchestrator after a sequence of moves from the initial state. -/
def runMoves (moves : List Move) : Orchestrator :=
  moves.foldl Orchestrator.move Orchestrator.initial

/-- Whether the move is a call of `Init` on the pair that the orchestrator in
state `s` answers with success. -/
def Orchestrator.initSucceeds (s : Orchestrator) (resourceGroupId scope : String) : Move → Bool
  | .call (.Init rg sc result started finished) =>
    decide (rg = resourceGroupId) && decide (sc = scope) &&
      (match (s.Init rg sc result started finished).1 with
       | .ok _ => true
       | .error _ => false)
  | _ => false

/-- Whether a successful `Init` has run on the pair in the course of the
moves, taken from state `s`. -/
def initHasSucceeded (s : Orchestrator) (resourceGroupId scope : String) : List Move → Bool
  | [] => false
  | mv :: rest =>
    s.initSucceeds resourceGroupId scope mv ||
      initHasSucceeded (s.move mv) resourceGroupId scope rest

/-- An execution in which no `Init` succeeds on `("rg-01", "gcp-aws")`: an
`Init` of that pair fails in the engine, an `Init` of another resource group
succeeds, an `Apply` of a third one is in flight, and an `Init` of the pair is
refused while another caller holds a lease on it, which is released later. -/
def sampleMoves : List Move :=
  [Move.call (Call.Init "rg-01" "gcp-aws" (ExecutionResult.Failed "exit status 1") 0 1),
   Move.call (Call.Init "rg-02" "gcp-aws" (ExecutionResult.Succeeded "initialized") 2 3),
   Move.inFlight
     [{ resourceGroupId := "rg-01", scope := "gcp-aws", action := Action.Destroy,
        status := Status.Running, startedAt := 4, finishedAt := none, lastError := none },
      { resourceGroupId := "rg-03", scope := "gcp-aws", action := Action.Apply,
        status := Status.Running, startedAt := 4, finishedAt := none, lastError := none }],
   Move.call (Call.Init "rg-01" "gcp-aws" (ExecutionResult.Succeeded "initialized") 5 6),
   Move.inFlight
     [{ resourceGroupId := "rg-01", scope := "gcp-aws", action := Action.Destroy,
        status := Status.Failed, startedAt := 4, finishedAt := some 7,
        lastError := some "exit status 1" },
      { resourceGroupId := "rg-03", scope := "gcp-aws", action := Action.Apply,
        status := Status.Running, startedAt := 4, finishedAt := none, lastError := none }]]

/-! ## Sample inputs and observations used in the statements -/

/-- The basic-auth middlewares a run of events installs, in order. -/
def authMiddlewares (events : List Event) : List Middleware :=
  events.filterMap (fun e =>
    match e with
    | Event.use (Middleware.BasicAuth u p) => some (Middleware.BasicAuth u p)
    | _ => none)

/-- The schema reference `#/definitions/models.Response`. -/
def modelsResponse : Option String := some "#/definitions/models.Response"

/-- A configuration with CORS origins set and the given `api.auth.enabled`. -/
def sampleConfig (authEnabled : String) (key : String) : String :=
  if key = "api.allow.origins" then "*"
  else if key = "api.auth.enabled" then authEnabled
  else if key = "api.username" then "default"
  else if key = "api.password" then "default"
  else if key = "self.endpoint" then "localhost:8888"
  else ""

/-- Surroundings of an execution that ends by graceful shutdown, with
authentication enabled and the final save failing. -/
def gracefulEnv : Env :=
  { viperGetString := sampleConfig "true", loadErr := none, saveErr := some "disk full",
    startResult := some StartResult.ErrServerClosed, signalled := true, shutdownErr := none }

/-- The same surroundings with `api.auth.enabled` mistyped as `ture`. -/
def typoEnv : Env :=
  { gracefulEnv with viperGetString := sampleConfig "ture" }

/-- A configuration that leaves `api.allow.origins` empty. -/
def noOriginsConfig (key : String) : String :=
  if key = "api.allow.origins" then "" else sampleConfig "true" key

/-- Surroundings in which `api.allow.origins` is empty. -/
def noOriginsEnv : Env :=
  { gracefulEnv with viperGetString := noOriginsConfig }

/-- Surroundings in which the signal arrives and `e.Start` returns
`http.ErrServerClosed`, but `e.Shutdown` fails, so that the shutdown goroutine
panics; the process dies before the main goroutine takes another step. -/
def shutdownFailsEnv : Env :=
  { gracefulEnv with shutdownErr := some "context deadline exceeded", crashProgress := 0 }

/-- Surroundings in which `e.Start` fails, for instance on a port in use. -/
def startFailsEnv : Env :=
  { gracefulEnv with startResult := some (StartResult.other "bind: address already in use"),
                     signalled := false }

/-- Two `acquire` calls on one pair, for two different actions. -/
def twoActions : List Step :=
  [Step.acquire "rg-01" "gcp-aws" Action.Init 0, Step.acquire "rg-01" "gcp-aws" Action.Plan 1]

/-! ## Theorems: running-status tracker -/

/-- A refused `acquire` means a `Running` record of the pair, and an accepted
one gives the lease of the key and the map with the new `Running` record in
front of the records of the other keys. -/
theorem acquire_eq (m : RunningStatusMap) (rg scope : String) (action : Action) (now : Nat) :
    (hasRunning m (rg, scope, action) = true ∧
      acquire m rg scope action now = .error .OperationInProgress) ∨
    (hasRunning m (rg, scope, action) = false ∧
      acquire m rg scope action now = .ok (⟨(rg, scope, action)⟩,
        { resourceGroupId := rg, scope := scope, action := action,
          status := .Running, startedAt := now, finishedAt := none, lastError := none }
          :: m.filter (fun r => decide (r.key ≠ (rg, scope, action))))) := by
  unfold acquire
  cases h : hasRunning m (rg, scope, action)
  · exact Or.inr ⟨rfl, by simp [h]⟩
  · exact Or.inl ⟨rfl, by simp [h]⟩

/-- Without a `Running` record of the pair, the pair has no `Running` record
to count. -/
theorem runningCount_eq_zero (m : RunningStatusMap) (rg scope : String) (action : Action)
    (h : hasRunning m (rg, scope, action) = false) : runningCount m rg scope = 0 := by
  unfold runningCount
  rw [List.countP_eq_zero]
  intro r hr hp
  unfold hasRunning at h
  rw [List.any_eq_false] at h
  exact h r hr hp

/-- Dropping records does not add `Running` records to a pair. -/
theorem runningCount_filter_le (m : RunningStatusMap) (p : OperationRecord → Bool)
    (rg scope : String) : runningCount (m.filter p) rg scope ≤ runningCount m rg scope := by
  unfold runningCount
  exact List.Sublist.countP_le _ (List.filter_sublist m)

/-- A `release` does not add `Running` records to a pair. -/
theorem runningCount_release_le (m : RunningStatusMap) (lease : Lease) (outcome : Outcome)
    (now : Nat) (rg scope : String) :
    runningCount (release m lease outcome now) rg scope ≤ runningCount m rg scope := by
  unfold runningCount release
  rw [List.countP_map]
  apply List.countP_mono_left
  intro r _ hr
  simp only [Function.comp] at hr
  split at hr
  · rename_i hcond
    cases outcome <;> simp [Outcome.status] at hr
  · exact hr

/-- A transition keeps the bound of one `Running` record for every pair. -/
theorem step_runningCount_le_one (m : RunningStatusMap) (s : Step)
    (h : ∀ rg scope, runningCount m rg scope ≤ 1) :
    ∀ rg scope, runningCount (step m s) rg scope ≤ 1 := by
  intro rg scope
  cases s with
  | acquire rg1 scope1 action now =>
    simp only [step]
    rcases acquire_eq m rg1 scope1 action now with ⟨_, hacq⟩ | ⟨hfree, hacq⟩
    · rw [hacq]
      exact h rg scope
    · rw [hacq]
      have hle := runningCount_filter_le m (fun r => decide (r.key ≠ (rg1, scope1, action)))
      by_cases hpair : rg1 = rg ∧ scope1 = scope
      · obtain ⟨rfl, rfl⟩ := hpair
        have hzero := runningCount_eq_zero m rg1 scope1 action hfree
        have := hle rg1 scope1
        unfold runningCount at *
        simp only [List.countP_cons, decide_True, Bool.and_self, if_true]
        omega
      · have := hle rg scope
        have hb := h rg scope
        unfold runningCount at *
        have hfalse : (decide (rg1 = rg) && decide (scope1 = scope)) = false := by
          rw [Bool.and_eq_false_iff]
          by_cases h1 : rg1 = rg
          · exact Or.inr (by simpa using fun h2 => hpair ⟨h1, h2⟩)
          · exact Or.inl (by simpa using h1)
        simp only [List.countP_cons, hfalse, Bool.false_and, Bool.false_eq_true, if_false]
        omega
  | release lease outcome now =>
    simp only [step]
    exact le_trans (runningCount_release_le m lease outcome now rg scope) (h rg scope)

/-- Every sequence of transitions keeps the bound of one `Running` record for
every pair. -/
theorem foldl_step_runningCount_le_one (steps : List Step) (m : RunningStatusMap)
    (h : ∀ rg scope, runningCount m rg scope ≤ 1) :
    ∀ rg scope, runningCount (steps.foldl step m) rg scope ≤ 1 := by
  induction steps generalizing m with
  | nil => exact h
  | cons s rest ih => exact ih _ (step_runningCount_le_one m s h)

/-- While `Init` runs on the pair `("rg-01", "gcp-aws")`, an `acquire` for
`Plan` on that pair is refused, and the pair keeps its one `Running` record. -/
theorem second_action_refused :
    acquire (runSteps [Step.acquire "rg-01" "gcp-aws" Action.Init 0]) "rg-01" "gcp-aws"
      Action.Plan 1 = .error TrackerError.OperationInProgress ∧
    runningCount (runSteps twoActions) "rg-01" "gcp-aws" = 1 :=
  ⟨rfl, by decide⟩

/-- C2: in every state of the running-status map reachable from the empty map
by `acquire` and `release` steps, each pair `(resourceGroupId, scope)` has at
most one record with status `Running`, counting the records of all actions of
that pair. -/
theorem running_per_pair_le_one (steps : List Step) (rg scope : String) :
    runningCount (runSteps steps) rg scope ≤ 1 :=
  foldl_step_runningCount_le_one steps [] (fun _ _ => Nat.zero_le 1) rg scope

/-- C3: for every persisted map, the startup load keeps the records in place
under their keys; a record persisted as `Running` comes out `Failed` with the
non-empty `lastError` "interrupted by restart", and a record persisted with any
other status comes out unchanged, its status included. -/
theorem LoadRunningStatusMap_reconciles (persisted : RunningStatusMap) :
    List.Forall₂
      (fun before after =>
        after.key = before.key ∧
        (before.status = Status.Running →
          after.status = Status.Failed ∧ after.lastError = some "interrupted by restart" ∧
          after.lastError ≠ none ∧ after.lastError ≠ some "") ∧
        (before.status ≠ Status.Running → after.status = before.status ∧ after = before))
      persisted (LoadRunningStatusMap (some persisted)) := by
  simp only [LoadRunningStatusMap]
  induction persisted with
  | nil => exact List.Forall₂.nil
  | cons r rest ih =>
    refine List.Forall₂.cons ?_ ih
    unfold reconcile
    by_cases h : r.status = Status.Running
    · simp [h, OperationRecord.key, interruptedByRestart]
    · simp [h]

/-! ## Theorems: RunServer -/

/-- Neither the save nor a return of `e.Start` occurs in the startup events. -/
theorem startupEvents_no_save (env : Env) :
    Event.SaveRunningStatusMap ∉ startupEvents env ∧
    (∀ r, Event.startReturn r ∉ startupEvents env) := by
  simp only [startupEvents]
  cases env.loadErr <;> simp

/-- Neither the load, the save nor a return of `e.Start` occurs from the CORS
middleware up to the call of `e.Start`; that call does occur. -/
theorem serveEvents_no_save (env : Env) (port : String) :
    Event.SaveRunningStatusMap ∉ serveEvents env port ∧
    (∀ r, Event.startReturn r ∉ serveEvents env port) ∧
    Event.LoadRunningStatusMap ∉ serveEvents env port ∧
    Event.start (":" ++ port) ∈ serveEvents env port := by
  simp only [serveEvents]
  split <;> simp

/-- C4: `RunServer` calls `tofu.LoadRunningStatusMap` exactly once, as its
second event after one log line, so before every middleware, route and the
call of `e.Start`; the shutdown goroutine never calls it. An error of the load
only adds one warning right after the load: the rest of the execution, the
shutdown goroutine and the ending are those of a successful load, and with
non-empty `api.allow.origins` the server is started whatever the load
returned. -/
theorem RunServer_load_once_first (env : Env) (port : String) :
    (∃ rest, (RunServer env port).main =
        Event.logInfo "Setting Tofu command utility" :: Event.LoadRunningStatusMap :: rest ∧
      Event.LoadRunningStatusMap ∉ rest) ∧
    (RunServer env port).main.count Event.LoadRunningStatusMap = 1 ∧
    Event.LoadRunningStatusMap ∉ (RunServer env port).watcher ∧
    (∀ err : String,
      (RunServer { env with loadErr := some err } port).main =
        (RunServer { env with loadErr := none } port).main.take 2 ++ [Event.logWarn err] ++
          (RunServer { env with loadErr := none } port).main.drop 2 ∧
      (RunServer { env with loadErr := some err } port).watcher =
        (RunServer { env with loadErr := none } port).watcher ∧
      (RunServer { env with loadErr := some err } port).ending =
        (RunServer { env with loadErr := none } port).ending) ∧
    (env.viperGetString "api.allow.origins" ≠ "" →
      Event.start (":" ++ port) ∈ (RunServer env port).main) := by
  have hserve := fun env : Env => (serveEvents_no_save env port).2.2.1
  have hstart := fun env : Env => (serveEvents_no_save env port).2.2.2
  have hfirst : ∃ rest, (RunServer env port).main =
        Event.logInfo "Setting Tofu command utility" :: Event.LoadRunningStatusMap :: rest ∧
      Event.LoadRunningStatusMap ∉ rest := by
    rcases env with ⟨viper, loadErr, saveErr, startResult, signalled, shutdownErr, progress, stopProgress⟩
    by_cases horig : viper "api.allow.origins" = "" <;>
    rcases startResult with _ | _ | _ | msg <;>
    rcases loadErr with _ | err <;>
    rcases saveErr with _ | serr <;>
    rcases signalled with _ | _ <;>
    rcases shutdownErr with _ | sherr <;>
    simp [RunServer, horig, startupEvents, shutdownGoroutine, deferredCalls, deferredSave,
      hserve] <;>
    (intro hmem
     have := List.mem_of_mem_take hmem
     simp at this)
  refine ⟨hfirst, ?_, ?_, ?_, ?_⟩
  · obtain ⟨rest, hmain, hrest⟩ := hfirst
    rw [hmain]
    simp [List.count_cons, List.count_eq_zero.mpr hrest]
  · rcases env with ⟨viper, loadErr, saveErr, startResult, signalled, shutdownErr, progress, stopProgress⟩
    by_cases horig : viper "api.allow.origins" = "" <;>
    rcases startResult with _ | _ | _ | msg <;>
    rcases signalled with _ | _ <;>
    rcases shutdownErr with _ | sherr <;>
    simp [RunServer, horig, shutdownGoroutine] <;>
    (intro hmem
     have := List.mem_of_mem_take hmem
     simp at this)
  · intro err
    rcases env with ⟨viper, loadErr, saveErr, startResult, signalled, shutdownErr, progress, stopProgress⟩
    by_cases horig : viper "api.allow.origins" = "" <;>
    rcases startResult with _ | _ | _ | msg <;>
    rcases signalled with _ | _ <;>
    rcases shutdownErr with _ | sherr <;>
    simp [RunServer, horig, startupEvents, shutdownGoroutine, deferredCalls, deferredSave,
      serveEvents]
  · intro horig
    rcases env with ⟨viper, loadErr, saveErr, startResult, signalled, shutdownErr, progress, stopProgress⟩
    simp only at horig
    rcases startResult with _ | _ | _ | msg <;>
    rcases signalled with _ | _ <;>
    rcases shutdownErr with _ | sherr <;>
    simp [RunServer, horig, shutdownGoroutine, hstart]

/-- A return of `e.Start` occurs only past the origins check, with the value
the server gave. -/
theorem startReturn_mem (env : Env) (port : String) (r : StartResult)
    (h : Event.startReturn r ∈ (RunServer env port).main) :
    env.viperGetString "api.allow.origins" ≠ "" ∧ env.startResult = some r := by
  have hs1 := fun env => (startupEvents_no_save env).2
  have hs2 := fun env => (serveEvents_no_save env port).2.1
  rcases env with ⟨viper, loadErr, saveErr, startResult, signalled, shutdownErr, progress, stopProgress⟩
  by_cases horig : viper "api.allow.origins" = ""
  · exfalso
    simp [RunServer, horig, hs1] at h
  · refine ⟨horig, ?_⟩
    rcases startResult with _ | _ | _ | msg <;>
    rcases saveErr with _ | serr <;>
    rcases signalled with _ | _ <;>
    rcases shutdownErr with _ | sherr <;>
    simp [RunServer, horig, shutdownGoroutine, deferredCalls, deferredSave, hs1, hs2] at h <;>
    first
      | (simp [h]; done)
      | (rcases h with h | h
         · simp [h]
         · exact absurd (List.mem_of_mem_take h) (by simp))

/-- C5: on every execution of `RunServer` that ends by graceful shutdown (the
signal arrives, `e.Shutdown` succeeds and `e.Start` returns
`http.ErrServerClosed`), `RunServer` returns, it calls
`tofu.SaveRunningStatusMap` exactly once, and that call comes last but for the
log line of its error: after the return of `e.Start`, after the return of
`wg.Wait` and after `stop`. The shutdown goroutine has shut the server down and
ended with `wg.Done`, and it never saves. An error of the save is logged and
the execution still ends by a normal return. -/
theorem RunServer_graceful_save (env : Env) (port : String)
    (hsignal : env.signalled = true) (hshutdown : env.shutdownErr = none)
    (hstart : Event.startReturn StartResult.ErrServerClosed ∈ (RunServer env port).main) :
    (RunServer env port).ending = Ending.returned ∧
    (RunServer env port).main.count Event.SaveRunningStatusMap = 1 ∧
    (∃ before,
      (RunServer env port).main =
        before ++ [Event.startReturn StartResult.ErrServerClosed, Event.wgWait, Event.stop,
          Event.SaveRunningStatusMap] ++
          (match env.saveErr with
           | some err => [Event.logError err "Failed to save running status map"]
           | none => []) ∧
      Event.SaveRunningStatusMap ∉ before) ∧
    Event.SaveRunningStatusMap ∉ (RunServer env port).watcher ∧
    Event.shutdown ∈ (RunServer env port).watcher ∧
    (RunServer env port).watcher.getLast? = some Event.wgDone := by
  obtain ⟨horig, hres⟩ := startReturn_mem env port _ hstart
  have hbefore : Event.SaveRunningStatusMap ∉ startupEvents env ++ serveEvents env port := by
    simp [(startupEvents_no_save env).1, (serveEvents_no_save env port).1]
  have hcount : (startupEvents env ++ serveEvents env port).count Event.SaveRunningStatusMap = 0 :=
    List.count_eq_zero.mpr hbefore
  have hrun : RunServer env port =
      { main := startupEvents env ++ serveEvents env port ++
          [Event.startReturn StartResult.ErrServerClosed, Event.wgWait] ++ deferredCalls env,
        watcher := [Event.ctxDone, Event.print "\n[Stop] mc-terrarium REST API server\n",
          Event.logInfo "stopping mc-terrarium REST API server", Event.withTimeout 3,
          Event.shutdown, Event.cancel, Event.wgDone],
        ending := Ending.returned } := by
    simp [RunServer, horig, hres, shutdownGoroutine, hsignal, hshutdown]
  rw [hrun]
  refine ⟨rfl, ?_, ⟨startupEvents env ++ serveEvents env port, ?_, hbefore⟩, ?_, ?_, ?_⟩
  · simp only [List.count_append, hcount, deferredCalls, deferredSave]
    cases env.saveErr <;> simp
  · simp only [deferredCalls, deferredSave]
    cases env.saveErr <;> simp
  · simp
  · simp
  · simp

/-- C5, at a concrete execution: with origins `*`, a signal, a successful
shutdown and `http.ErrServerClosed` from `e.Start`, `RunServer` returns and
saves exactly once, although the save fails. -/
theorem RunServer_graceful_save_witness :
    gracefulEnv.signalled = true ∧ gracefulEnv.shutdownErr = none ∧
    Event.startReturn StartResult.ErrServerClosed ∈ (RunServer gracefulEnv "8888").main ∧
    (RunServer gracefulEnv "8888").ending = Ending.returned ∧
    (RunServer gracefulEnv "8888").main.count Event.SaveRunningStatusMap = 1 :=
  ⟨rfl, rfl, by decide,
    (RunServer_graceful_save gracefulEnv "8888" rfl rfl (by decide)).1,
    (RunServer_graceful_save gracefulEnv "8888" rfl rfl (by decide)).2.1⟩

/-! ## Theorems: basic authentication -/

/-- A bitwise or is zero only when both sides are. -/
theorem lor_eq_zero_iff (a b : Nat) : a ||| b = 0 ↔ a = 0 ∧ b = 0 := by
  constructor
  · intro h
    have hbit : ∀ i, (a.testBit i || b.testBit i) = false := by
      intro i
      rw [← Nat.testBit_or, h, Nat.zero_testBit]
    constructor
    · apply Nat.eq_of_testBit_eq
      intro i
      have := hbit i
      simp only [Bool.or_eq_false_iff] at this
      rw [this.1, Nat.zero_testBit]
    · apply Nat.eq_of_testBit_eq
      intro i
      have := hbit i
      simp only [Bool.or_eq_false_iff] at this
      rw [this.2, Nat.zero_testBit]
  · rintro ⟨rfl, rfl⟩
    rfl

/-- The accumulator of the comparison loop stays a byte. -/
theorem orXor_lt (v : Nat) (x y : List Byte) (hv : v < 256) : orXor v x y < 256 := by
  induction x generalizing v y with
  | nil => simpa [orXor] using hv
  | cons a x ih =>
    cases y with
    | nil => simpa [orXor] using hv
    | cons b y =>
      simp only [orXor]
      exact ih _ _ (Nat.mod_lt _ (by decide))

/-- The accumulator ends at zero exactly when it started at zero and the
two slices of equal length agree. -/
theorem orXor_eq_zero_iff (v : Nat) (x y : List Byte) (hlen : x.length = y.length)
    (hv : v < 256) : orXor v x y = 0 ↔ v = 0 ∧ x = y := by
  induction x generalizing v y with
  | nil =>
    cases y with
    | nil => simp [orXor]
    | cons b y => simp at hlen
  | cons a x ih =>
    cases y with
    | nil => simp at hlen
    | cons b y =>
      simp only [List.length_cons, Nat.add_right_cancel_iff] at hlen
      have hab : a.val ^^^ b.val < 2 ^ 8 := Nat.xor_lt_two_pow a.isLt b.isLt
      have hor : v ||| (a.val ^^^ b.val) < 256 := @Nat.or_lt_two_pow v (a.val ^^^ b.val) 8 hv hab
      simp only [orXor]
      rw [ih _ _ hlen (Nat.mod_lt _ (by decide)), Nat.mod_eq_of_lt hor, lor_eq_zero_iff,
        Nat.xor_eq_zero, List.cons.injEq, Fin.val_inj]
      tauto

/-- On bytes, `ConstantTimeByteEq v 0` is `1` for `v = 0` and `0` otherwise. -/
theorem ConstantTimeByteEq_zero (v : Nat) (hv : v < 256) :
    ConstantTimeByteEq v 0 = if v = 0 then 1 else 0 := by
  unfold ConstantTimeByteEq
  rw [Nat.xor_zero, Nat.shiftRight_eq_div_pow]
  split <;> omega

/-- The comparison returns `1` exactly on equal slices, and `0` otherwise. -/
theorem ConstantTimeCompare_eq (x y : List Byte) :
    ConstantTimeCompare x y = if x = y then 1 else 0 := by
  unfold ConstantTimeCompare
  by_cases hlen : x.length = y.length
  · rw [if_neg (by simpa using hlen), ConstantTimeByteEq_zero _ (orXor_lt 0 x y (by decide))]
    have := orXor_eq_zero_iff 0 x y hlen (by decide)
    by_cases hxy : x = y
    · rw [if_pos hxy, if_pos (this.mpr ⟨rfl, hxy⟩)]
    · rw [if_neg hxy, if_neg (fun h => hxy (this.mp h).2)]
  · rw [if_pos hlen, if_neg (fun h => hlen (by rw [h]))]

/-- C6: for every username and password, the validator returns `(true, nil)`
exactly when the username is, byte for byte, the configured `api.username` and
the password is, byte for byte, the configured `api.password`; in every other
case it returns `(false, nil)`; its error is always `nil`. -/
theorem Validator_iff (apiUser apiPass : String) (username password : List Byte) :
    (Validator apiUser apiPass username password = (true, none) ↔
      username = bytes apiUser ∧ password = bytes apiPass) ∧
    (Validator apiUser apiPass username password = (false, none) ↔
      ¬ (username = bytes apiUser ∧ password = bytes apiPass)) ∧
    (Validator apiUser apiPass username password).2 = none := by
  unfold Validator
  rw [ConstantTimeCompare_eq, ConstantTimeCompare_eq]
  by_cases h1 : username = bytes apiUser <;> by_cases h2 : password = bytes apiPass <;>
    simp [h1, h2]

/-- C7: the skipper returns `true` exactly for the route paths
`/terrarium/readyz` and `/terrarium/httpVersion`; it returns `false` for
`/terrarium/tofuVersion`, for every path that starts with `/terrarium/api`
(the Swagger routes) and for every path that starts with `/terrarium/rg/`. -/
theorem Skipper_iff (path rest : String) :
    (Skipper path = true ↔ path = "/terrarium/readyz" ∨ path = "/terrarium/httpVersion") ∧
    Skipper "/terrarium/tofuVersion" = false ∧
    Skipper ("/terrarium/api" ++ rest) = false ∧
    Skipper ("/terrarium/rg/" ++ rest) = false := by
  refine ⟨?_, ?_, ?_, ?_⟩
  · simp [Skipper]
  · decide
  · simp [Skipper, String.ext_iff, String.data_append]
  · simp [Skipper, String.ext_iff, String.data_append]

/-- The startup events install no basic-auth middleware. -/
theorem authMiddlewares_startupEvents (env : Env) : authMiddlewares (startupEvents env) = [] := by
  simp only [startupEvents, authMiddlewares]
  cases env.loadErr <;> rfl

/-- The events up to `e.Start` install the basic-auth middleware exactly when
`api.auth.enabled` is `"true"`. -/
theorem authMiddlewares_serveEvents (env : Env) (port : String) :
    authMiddlewares (serveEvents env port) =
      if env.viperGetString "api.auth.enabled" = "true" then
        [Middleware.BasicAuth (env.viperGetString "api.username")
          (env.viperGetString "api.password")]
      else [] := by
  simp only [serveEvents, authMiddlewares]
  by_cases h : env.viperGetString "api.auth.enabled" = "true"
  · simp [h]
  · simp [h]

/-- The installed middlewares of two runs of events, one after the other. -/
theorem authMiddlewares_append (a b : List Event) :
    authMiddlewares (a ++ b) = authMiddlewares a ++ authMiddlewares b := by
  simp [authMiddlewares, List.filterMap_append]

/-- Only the installation of basic authentication adds a middleware. -/
theorem authMiddlewares_cons (e : Event) (es : List Event) :
    authMiddlewares (e :: es) =
      (match e with
       | Event.use (Middleware.BasicAuth u p) => [Middleware.BasicAuth u p]
       | _ => []) ++ authMiddlewares es := by
  cases e <;> try rfl
  rename_i m
  cases m <;> rfl

/-- A run of events that installs nothing has no start that installs something. -/
theorem authMiddlewares_take (n : Nat) (es : List Event) (h : authMiddlewares es = []) :
    authMiddlewares (es.take n) = [] := by
  unfold authMiddlewares at *
  rw [List.filterMap_eq_nil_iff] at *
  exact fun e he => h e (List.mem_of_mem_take he)

/-- The basic-auth middlewares `RunServer` installs. -/
theorem authMiddlewares_RunServer (env : Env) (port : String) :
    authMiddlewares (RunServer env port).main =
      if env.viperGetString "api.allow.origins" = "" then []
      else authMiddlewares (serveEvents env port) := by
  have h1 := fun env => authMiddlewares_startupEvents env
  have h0 : authMiddlewares [] = [] := rfl
  rcases env with ⟨viper, loadErr, saveErr, startResult, signalled, shutdownErr, progress, stopProgress⟩
  by_cases horig : viper "api.allow.origins" = "" <;>
  rcases startResult with _ | _ | _ | msg <;>
  rcases saveErr with _ | serr <;>
  rcases signalled with _ | _ <;>
  rcases shutdownErr with _ | sherr <;>
  simp [RunServer, horig, shutdownGoroutine, deferredCalls, deferredSave,
    authMiddlewares_append, authMiddlewares_cons, h1, h0] <;>
  exact authMiddlewares_take _ _ (by simp [authMiddlewares_cons, h0])

/-- C8: for every value of `api.auth.enabled` other than the exact string
`"true"`, `RunServer` installs no basic-auth middleware; for the value
`"true"`, on every start that gets past the check of `api.allow.origins`, it
installs exactly one, built from the configured `api.username` and
`api.password`. -/
theorem RunServer_basicAuth_iff (env : Env) (port : String) :
    (env.viperGetString "api.auth.enabled" ≠ "true" →
      authMiddlewares (RunServer env port).main = []) ∧
    (env.viperGetString "api.auth.enabled" = "true" →
      env.viperGetString "api.allow.origins" ≠ "" →
      authMiddlewares (RunServer env port).main =
        [Middleware.BasicAuth (env.viperGetString "api.username")
          (env.viperGetString "api.password")]) := by
  rw [authMiddlewares_RunServer, authMiddlewares_serveEvents]
  constructor
  · intro hauth
    simp [hauth]
  · intro hauth horig
    simp [hauth, horig]

/-- C8, at concrete configurations: with `api.auth.enabled` set to `true`
the basic-auth middleware for `default`/`default` is installed; with the typo
`ture` none is. -/
theorem RunServer_basicAuth_witness :
    authMiddlewares (RunServer gracefulEnv "8888").main =
      [Middleware.BasicAuth "default" "default"] ∧
    authMiddlewares (RunServer typoEnv "8888").main = [] :=
  ⟨(RunServer_basicAuth_iff gracefulEnv "8888").2 (by decide) (by decide),
    (RunServer_basicAuth_iff typoEnv "8888").1 (by decide)⟩

/-! ## Theorems: documentation -/

set_option maxRecDepth 100000 in
/-- C9: `docTemplate` documents eight operations on paths that start with
`/rg/`, and each of them declares exactly three responses: `200` or `201`,
then `400`, then `503`, each referring to the schema `models.Response`. -/
theorem rg_operations_responses :
    ((operations docTemplate).filter (fun op => startsWith op.path "/rg/")).length = 8 ∧
    ∀ op ∈ operations docTemplate, startsWith op.path "/rg/" = true →
      responses op = [("200", modelsResponse), ("400", modelsResponse), ("503", modelsResponse)] ∨
      responses op = [("201", modelsResponse), ("400", modelsResponse), ("503", modelsResponse)] := by
  decide

set_option maxRecDepth 100000 in
/-- C10: the documented schema `models.Response` is an object with exactly
two properties, `success` of type `boolean` and `text` of type `string`. -/
theorem models_Response_envelope :
    (definition docTemplate "models.Response").map
        (fun schema => ((schema.get "type").bind JSON.string, properties schema)) =
      some (some "object", [("success", some "boolean"), ("text", some "string")]) := by
  decide


/-! ## Theorems: RunServer, the origins check and the end of the execution -/

/-- The deferred calls are events that follow the return of `e.Start`. -/
theorem deferredCalls_pastStart (env : Env) : ∀ e ∈ deferredCalls env, pastStart e = true := by
  intro e he
  simp only [deferredCalls, deferredSave] at he
  cases hs : env.saveErr with
  | none =>
    simp [hs] at he
    rcases he with rfl | rfl <;> rfl
  | some err =>
    simp [hs] at he
    rcases he with rfl | rfl | rfl <;> rfl

/-- With empty `api.allow.origins` the main goroutine performs the startup
events and the fatal log line. -/
theorem RunServer_main_fatal (env : Env) (port : String)
    (horig : env.viperGetString "api.allow.origins" = "") :
    (RunServer env port).main = startupEvents env ++
      [Event.logFatal ("allow_ORIGINS env variable for CORS is " ++ "" ++
        ". Please provide a proper value and source setup.env again. EXITING...")] ∧
    (RunServer env port).watcher = [] ∧
    (RunServer env port).ending = Ending.exited 1 := by
  simp [RunServer, horig]

/-- Past the origins check the main goroutine performs the startup events, the
events up to the call of `e.Start`, and then only events that follow the
return of `e.Start`. -/
theorem RunServer_main_shape (env : Env) (port : String)
    (horig : env.viperGetString "api.allow.origins" ≠ "") :
    ∃ last, (RunServer env port).main = startupEvents env ++ (serveEvents env port ++ last) ∧
      ∀ e ∈ last, pastStart e = true := by
  have hd := deferredCalls_pastStart env
  have hd2 : ∀ e ∈ Event.wgWait :: deferredCalls env, pastStart e = true := by
    intro e he
    rcases List.mem_cons.mp he with h | h
    · subst h; rfl
    · exact hd e h
  unfold RunServer
  simp only [horig, if_false]
  rcases hres : env.startResult with _ | _ | _ | msg
  · exact ⟨[], by simp, by simp⟩
  all_goals rcases hw : (shutdownGoroutine env false).2 with _ | _ | _
  all_goals simp only [List.append_assoc, List.singleton_append, List.cons_append,
    List.nil_append]
  all_goals refine ⟨_, rfl, ?_⟩
  all_goals intro e he
  all_goals simp only [List.mem_cons, List.mem_append, List.mem_singleton] at he
  · rcases he with h | h
    · subst h; rfl
    · simp at h
  · rcases he with h | h
    · subst h; rfl
    · exact hd2 e (List.mem_of_mem_take h)
  · rcases he with h | h | h
    · subst h; rfl
    · subst h; rfl
    · exact hd e h
  · rcases he with h | h
    · subst h; rfl
    · simp at h
  · rcases he with h | h
    · subst h; rfl
    · exact hd2 e (List.mem_of_mem_take h)
  · rcases he with h | h | h
    · subst h; rfl
    · subst h; rfl
    · exact hd e h
  all_goals
    rcases he with h | h | h
    · subst h; rfl
    · subst h; rfl
    · exact hd e h


/-- Past the origins check the execution does not end by `log.Fatal`. -/
theorem RunServer_ending_past_check (env : Env) (port : String)
    (horig : env.viperGetString "api.allow.origins" ≠ "") :
    (RunServer env port).ending ≠ Ending.exited 1 := by
  unfold RunServer
  simp only [horig, if_false]
  rcases env.startResult with _ | _ | _ | msg
  · simp
  all_goals rcases (shutdownGoroutine env false).2 with _ | _ | _ <;> simp

/-- The startup events come before the origins check: none of them installs
CORS or basic authentication, registers a route, sets readiness or starts the
server, and none is the fatal log line. -/
theorem startupEvents_before_check (env : Env) :
    (∀ e ∈ startupEvents env, pastOriginsCheck e = false) ∧
    (∀ msg, Event.logFatal msg ∉ startupEvents env) ∧
    corsAllowOrigins (startupEvents env) = [] ∧
    corsAllowMethods (startupEvents env) = [] := by
  simp only [startupEvents, corsAllowOrigins, corsAllowMethods]
  cases env.loadErr <;> simp [pastOriginsCheck]

/-- The events from the CORS middleware to the call of `e.Start` install CORS
once, with the configured origin as only origin and the four methods `GET`,
`PUT`, `POST` and `DELETE`; none is the fatal log line. -/
theorem serveEvents_cors (env : Env) (port : String) :
    corsAllowOrigins (serveEvents env port) = [[env.viperGetString "api.allow.origins"]] ∧
    corsAllowMethods (serveEvents env port) = [["GET", "PUT", "POST", "DELETE"]] ∧
    (∀ msg, Event.logFatal msg ∉ serveEvents env port) := by
  simp only [serveEvents, corsAllowOrigins, corsAllowMethods]
  split <;> simp

/-- Events that follow the return of `e.Start` install no CORS middleware and
are no fatal log line. -/
theorem pastStart_no_cors (last : List Event) (h : ∀ e ∈ last, pastStart e = true) :
    corsAllowOrigins last = [] ∧ corsAllowMethods last = [] ∧
    (∀ msg, Event.logFatal msg ∉ last) := by
  refine ⟨?_, ?_, ?_⟩
  · unfold corsAllowOrigins
    rw [List.filterMap_eq_nil_iff]
    intro e he
    have := h e he
    cases e <;> simp [pastStart] at this <;> rfl
  · unfold corsAllowMethods
    rw [List.filterMap_eq_nil_iff]
    intro e he
    have := h e he
    cases e <;> simp [pastStart] at this <;> rfl
  · intro msg hmem
    have := h _ hmem
    simp [pastStart] at this

/-- C16: if `api.allow.origins` is the empty string, `RunServer` ends the
process by `log.Fatal` with exit code 1: the fatal log line is its last event,
and no event before it installs the CORS middleware, registers a route or a
group of routes, sets readiness or calls `e.Start`. If it is not empty, there
is no fatal log line and no such exit, the server is started, and the one CORS
middleware installed has as `AllowOrigins` exactly the one-element list
holding that string. -/
theorem RunServer_origins_check (env : Env) (port : String) :
    (env.viperGetString "api.allow.origins" = "" →
      (RunServer env port).ending = Ending.exited 1 ∧
      (∃ msg, (RunServer env port).main.getLast? = some (Event.logFatal msg)) ∧
      (∀ e ∈ (RunServer env port).main, pastOriginsCheck e = false) ∧
      corsAllowOrigins (RunServer env port).main = []) ∧
    (env.viperGetString "api.allow.origins" ≠ "" →
      (∀ msg, Event.logFatal msg ∉ (RunServer env port).main) ∧
      (RunServer env port).ending ≠ Ending.exited 1 ∧
      corsAllowOrigins (RunServer env port).main =
        [[env.viperGetString "api.allow.origins"]] ∧
      Event.start (":" ++ port) ∈ (RunServer env port).main) := by
  have hstartup := startupEvents_before_check env
  constructor
  · intro horig
    obtain ⟨hmain, _, hend⟩ := RunServer_main_fatal env port horig
    rw [hmain]
    refine ⟨hend, ⟨"allow_ORIGINS env variable for CORS is " ++ "" ++
      ". Please provide a proper value and source setup.env again. EXITING...", by simp⟩, ?_, ?_⟩
    · intro e he
      rcases List.mem_append.mp he with h | h
      · exact hstartup.1 e h
      · simp only [List.mem_singleton] at h
        subst h; rfl
    · have : ∀ a b : List Event, corsAllowOrigins (a ++ b) =
          corsAllowOrigins a ++ corsAllowOrigins b := by
        intro a b; simp [corsAllowOrigins, List.filterMap_append]
      rw [this, hstartup.2.2.1]
      rfl
  · intro horig
    obtain ⟨last, hmain, hlast⟩ := RunServer_main_shape env port horig
    have hl := pastStart_no_cors last hlast
    have hs := serveEvents_cors env port
    refine ⟨?_, RunServer_ending_past_check env port horig, ?_, ?_⟩
    · intro msg hmem
      rw [hmain] at hmem
      rcases List.mem_append.mp hmem with h | h
      · exact hstartup.2.1 msg h
      · rcases List.mem_append.mp h with h | h
        · exact hs.2.2 msg h
        · exact hl.2.2 msg h
    · rw [hmain]
      simp only [corsAllowOrigins, List.filterMap_append] at *
      rw [hstartup.2.2.1, hs.1, hl.1]
      rfl
    · rw [hmain]
      exact List.mem_append_right _ (List.mem_append_left _ (serveEvents_no_save env port).2.2.2)

/-- C16, at concrete configurations: with empty `api.allow.origins` the
execution ends by exit code 1 and installs no CORS middleware; with the origin
`*` the CORS middleware is installed with `AllowOrigins` equal to `["*"]`. -/
theorem RunServer_origins_check_witness :
    (RunServer noOriginsEnv "8888").ending = Ending.exited 1 ∧
    corsAllowOrigins (RunServer noOriginsEnv "8888").main = [] ∧
    corsAllowOrigins (RunServer gracefulEnv "8888").main = [["*"]] :=
  ⟨((RunServer_origins_check noOriginsEnv "8888").1 (by decide)).1,
    ((RunServer_origins_check noOriginsEnv "8888").1 (by decide)).2.2.2,
    ((RunServer_origins_check gracefulEnv "8888").2 (by decide)).2.2.1⟩


/-- C17, as stated, fails: when the signal arrives, `e.Start` returns
`http.ErrServerClosed` and `e.Shutdown` fails, the main goroutine does not
panic, but the shutdown goroutine does, and on the schedule where the process
dies before the main goroutine takes another step the deferred
`tofu.SaveRunningStatusMap` does not run. -/
theorem save_skipped_when_shutdown_fails :
    Event.startReturn StartResult.ErrServerClosed ∈ (RunServer shutdownFailsEnv "8888").main ∧
    Event.loggerPanic "shuttig down the server" ∉ (RunServer shutdownFailsEnv "8888").main ∧
    Event.loggerPanic "context deadline exceeded" ∈ (RunServer shutdownFailsEnv "8888").watcher ∧
    (RunServer shutdownFailsEnv "8888").ending = Ending.crashed ∧
    Event.SaveRunningStatusMap ∉ (RunServer shutdownFailsEnv "8888").main ∧
    Event.SaveRunningStatusMap ∉ (RunServer shutdownFailsEnv "8888").watcher := by
  decide

/-- The execution when `e.Start` returns an error other than
`http.ErrServerClosed`. -/
theorem RunServer_start_fails (env : Env) (port : String) (msg : String)
    (horig : env.viperGetString "api.allow.origins" ≠ "")
    (hres : env.startResult = some (StartResult.other msg)) :
    (RunServer env port).main = startupEvents env ++ serveEvents env port ++
      [Event.startReturn (StartResult.other msg), Event.loggerPanic "shuttig down the server"] ++
      deferredCalls env ∧
    (RunServer env port).ending = Ending.panicked := by
  simp [RunServer, horig, hres]

/-- When `e.Start` fails and no signal arrives, the deferred `stop` of the
panicking main goroutine wakes the shutdown goroutine: it prints its `[Stop]`
line and shuts the server down, as far as it gets before the process dies. -/
theorem stop_wakes_shutdown_goroutine :
    startFailsEnv.signalled = false ∧
    (RunServer startFailsEnv "8888").watcher =
      [Event.ctxDone, Event.print "\n[Stop] mc-terrarium REST API server\n",
        Event.logInfo "stopping mc-terrarium REST API server", Event.withTimeout 3,
        Event.shutdown, Event.cancel, Event.wgDone] ∧
    (RunServer { startFailsEnv with stopProgress := 2 } "8888").watcher =
      [Event.ctxDone, Event.print "\n[Stop] mc-terrarium REST API server\n"] ∧
    (RunServer { startFailsEnv with stopProgress := 0 } "8888").watcher = [] := by
  decide

/-- The execution when `e.Start` returns `nil` or `http.ErrServerClosed`: the
main goroutine waits for the shutdown goroutine. -/
theorem RunServer_start_returns (env : Env) (port : String) (result : StartResult)
    (horig : env.viperGetString "api.allow.origins" ≠ "")
    (hres : env.startResult = some result)
    (hok : result = StartResult.nil ∨ result = StartResult.ErrServerClosed) :
    (env.signalled = true → env.shutdownErr = none →
      (RunServer env port).main = startupEvents env ++ serveEvents env port ++
        [Event.startReturn result, Event.wgWait] ++ deferredCalls env ∧
      (RunServer env port).ending = Ending.returned) ∧
    (env.signalled = true → env.shutdownErr ≠ none →
      (RunServer env port).main = startupEvents env ++ serveEvents env port ++
        [Event.startReturn result] ++
        (Event.wgWait :: deferredCalls env).take env.crashProgress ∧
      (RunServer env port).ending = Ending.crashed) ∧
    (env.signalled = false →
      (RunServer env port).main = startupEvents env ++ serveEvents env port ++
        [Event.startReturn result] ∧
      (RunServer env port).ending = Ending.blocked) := by
  refine ⟨?_, ?_, ?_⟩
  · intro hs hsh
    rcases hok with rfl | rfl <;> simp [RunServer, horig, hres, shutdownGoroutine, hs, hsh]
  · intro hs hsh
    obtain ⟨err, herr⟩ := Option.ne_none_iff_exists'.mp hsh
    rcases hok with rfl | rfl <;> simp [RunServer, horig, hres, shutdownGoroutine, hs, herr]
  · intro hs
    rcases hok with rfl | rfl <;> simp [RunServer, horig, hres, shutdownGoroutine, hs]

/-- Up to the call of `e.Start` the main goroutine neither panics nor waits. -/
theorem served_no_panic (env : Env) (port : String) :
    (∀ msg, Event.loggerPanic msg ∉ startupEvents env ++ serveEvents env port) ∧
    Event.wgWait ∉ startupEvents env ++ serveEvents env port ∧
    Event.SaveRunningStatusMap ∉ startupEvents env ++ serveEvents env port := by
  simp only [startupEvents, serveEvents]
  cases env.loadErr <;> split <;> simp

/-- The deferred calls hold the save once, and neither a panic nor the wait. -/
theorem deferredCalls_members (env : Env) :
    (deferredCalls env).count Event.SaveRunningStatusMap = 1 ∧
    (∀ msg, Event.loggerPanic msg ∉ deferredCalls env) ∧
    Event.wgWait ∉ deferredCalls env := by
  simp only [deferredCalls, deferredSave]
  cases env.saveErr <;> simp

/-- C17, amended: once `e.Start` has returned, the main goroutine of
`RunServer` panics if and only if the returned error is neither `nil` nor
`http.ErrServerClosed`, and then the execution ends by that panic, after the
deferred calls. When `e.Start` returns `nil` or `http.ErrServerClosed` the
main goroutine does not panic and waits for the shutdown goroutine; it returns
exactly when that goroutine finishes, that is when the signal arrives and
`e.Shutdown` succeeds. Whenever `RunServer` panics or returns, the deferred
`tofu.SaveRunningStatusMap` runs exactly once, among the deferred calls that
end the main goroutine. -/
theorem RunServer_panic_iff (env : Env) (port : String) (result : StartResult)
    (hret : Event.startReturn result ∈ (RunServer env port).main) :
    (Event.loggerPanic "shuttig down the server" ∈ (RunServer env port).main ↔
      ∃ msg, result = StartResult.other msg) ∧
    ((RunServer env port).ending = Ending.panicked ↔ ∃ msg, result = StartResult.other msg) ∧
    ((result = StartResult.nil ∨ result = StartResult.ErrServerClosed) →
      ((RunServer env port).ending = Ending.returned ↔
        env.signalled = true ∧ env.shutdownErr = none) ∧
      ((RunServer env port).ending = Ending.blocked ↔ env.signalled = false) ∧
      ((RunServer env port).ending = Ending.crashed ↔
        env.signalled = true ∧ env.shutdownErr ≠ none)) ∧
    (((RunServer env port).ending = Ending.panicked ∨
        (RunServer env port).ending = Ending.returned) →
      (RunServer env port).main.count Event.SaveRunningStatusMap = 1 ∧
      ∃ before, (RunServer env port).main = before ++ deferredCalls env ∧
        Event.SaveRunningStatusMap ∉ before ∧
        (Event.wgWait ∈ before ↔ (RunServer env port).ending = Ending.returned)) := by
  obtain ⟨horig, hres⟩ := startReturn_mem env port result hret
  obtain ⟨hpanic, hwait, hsave⟩ := served_no_panic env port
  obtain ⟨hcount, hdpanic, hdwait⟩ := deferredCalls_members env
  have hzero := List.count_eq_zero.mpr hsave
  simp only [List.count_append] at hzero
  by_cases hother : ∃ msg, result = StartResult.other msg
  · obtain ⟨msg, rfl⟩ := hother
    obtain ⟨hmain, hend⟩ := RunServer_start_fails env port msg horig hres
    rw [hmain, hend]
    refine ⟨by simp, by simp, by simp, fun _ => ⟨?_, _, rfl, ?_, ?_⟩⟩
    · simp [List.count_append, hcount]
      omega
    · simpa using hsave
    · simpa using hwait
  · have hok : result = StartResult.nil ∨ result = StartResult.ErrServerClosed := by
      rcases result with _ | _ | msg
      · exact Or.inl rfl
      · exact Or.inr rfl
      · exact absurd ⟨msg, rfl⟩ hother
    obtain ⟨h1, h2, h3⟩ := RunServer_start_returns env port result horig hres hok
    have hnp : ∀ l : List Event, (∀ e ∈ l, e ∈ Event.wgWait :: deferredCalls env) →
        Event.loggerPanic "shuttig down the server" ∉
          startupEvents env ++ serveEvents env port ++ [Event.startReturn result] ++ l := by
      intro l hl hmem
      simp only [List.mem_append, List.mem_singleton] at hmem
      rcases hmem with ((h | h) | h) | h
      · exact hpanic _ (List.mem_append_left _ h)
      · exact hpanic _ (List.mem_append_right _ h)
      · cases h
      · rcases List.mem_cons.mp (hl _ h) with h | h
        · cases h
        · exact hdpanic _ h
    rcases hs : env.signalled with _ | _
    · obtain ⟨hmain, hend⟩ := h3 hs
      rw [hmain, hend]
      refine ⟨?_, by simpa using hother, fun _ => by simp, by simp⟩
      constructor
      · intro hmem
        exact absurd (by simpa using hmem) (hnp [] (by simp))
      · intro h; exact absurd h hother
    · rcases hsh : env.shutdownErr with _ | sherr
      · obtain ⟨hmain, hend⟩ := h1 hs hsh
        rw [hmain, hend]
        refine ⟨?_, by simpa using hother, fun _ => by simp, fun _ => ⟨?_, ?_⟩⟩
        · constructor
          · intro hmem
            refine absurd ?_ (hnp (Event.wgWait :: deferredCalls env) (fun e he => he))
            simpa using hmem
          · intro h; exact absurd h hother
        · simp [List.count_append, hcount]
          omega
        · refine ⟨_, rfl, ?_, ?_⟩
          · simpa using hsave
          · simp
      · obtain ⟨hmain, hend⟩ := h2 hs (by simp [hsh])
        rw [hmain, hend]
        refine ⟨?_, by simpa using hother, fun _ => by simp, by simp⟩
        constructor
        · intro hmem
          exact absurd hmem (hnp _ (fun e he => List.mem_of_mem_take he))
        · intro h; exact absurd h hother

/-- C17, amended, at a concrete execution: when `e.Start` fails on a port in
use, the main goroutine panics, the execution ends by that panic, and the
deferred save has run once. -/
theorem RunServer_panic_iff_witness :
    Event.startReturn (StartResult.other "bind: address already in use") ∈
      (RunServer startFailsEnv "8888").main ∧
    Event.loggerPanic "shuttig down the server" ∈ (RunServer startFailsEnv "8888").main ∧
    (RunServer startFailsEnv "8888").ending = Ending.panicked ∧
    (RunServer startFailsEnv "8888").main.count Event.SaveRunningStatusMap = 1 :=
  ⟨by decide,
    (RunServer_panic_iff startFailsEnv "8888"
      (StartResult.other "bind: address already in use") (by decide)).1.mpr ⟨_, rfl⟩,
    (RunServer_panic_iff startFailsEnv "8888"
      (StartResult.other "bind: address already in use") (by decide)).2.1.mpr ⟨_, rfl⟩,
    ((RunServer_panic_iff startFailsEnv "8888"
      (StartResult.other "bind: address already in use") (by decide)).2.2.2
      (Or.inl (by decide))).1⟩


/-! ## Theorems: the documentation against the server -/

/-- C14, evaluated on the code: the version published by `SwaggerInfo` is the
annotated one, but its title and description are not the annotated ones, and
its base path is `/mc-net` while the annotation says `/terrarium`; every route
and group `RunServer` registers starts with `/terrarium`, none with the
published base path. -/
theorem SwaggerInfo_differs_from_annotations :
    SwaggerInfo.Version = annotations.version ∧
    SwaggerInfo.Title = "POC-MC-Net-TF REST API" ∧
    annotations.title = "Multi-Cloud Terrarium  REST API" ∧
    SwaggerInfo.Title ≠ annotations.title ∧
    SwaggerInfo.Description ≠ annotations.description ∧
    SwaggerInfo.BasePath = "/mc-net" ∧
    annotations.basePath = "/terrarium" ∧
    SwaggerInfo.BasePath ≠ annotations.basePath ∧
    (∀ path ∈ registeredPaths (RunServer gracefulEnv "8888").main,
      startsWith path annotations.basePath = true ∧
      startsWith path SwaggerInfo.BasePath = false) := by
  decide

/-- The CORS middlewares `RunServer` installs allow exactly the methods `GET`,
`PUT`, `POST` and `DELETE`. -/
theorem corsAllowMethods_RunServer (env : Env) (port : String) :
    ∀ methods ∈ corsAllowMethods (RunServer env port).main,
      methods = ["GET", "PUT", "POST", "DELETE"] := by
  intro methods hmem
  by_cases horig : env.viperGetString "api.allow.origins" = ""
  · rw [(RunServer_main_fatal env port horig).1] at hmem
    simp only [corsAllowMethods, List.filterMap_append] at hmem
    have := (startupEvents_before_check env).2.2.2
    simp only [corsAllowMethods] at this
    rw [this] at hmem
    simp at hmem
  · obtain ⟨last, hmain, hlast⟩ := RunServer_main_shape env port horig
    have h1 := (startupEvents_before_check env).2.2.2
    have h2 := (serveEvents_cors env port).2.1
    have h3 := (pastStart_no_cors last hlast).2.1
    rw [hmain] at hmem
    simp only [corsAllowMethods, List.filterMap_append] at hmem h1 h2 h3
    rw [h1, h2, h3] at hmem
    simpa using hmem

set_option maxRecDepth 100000 in
/-- C18, evaluated on the code: `docTemplate` documents operations under the
five methods `GET`, `DELETE`, `POST`, `PUT` and `PATCH`, the last one for
`/sample/users/{id}`; whatever the configuration, every CORS `AllowMethods`
list `RunServer` installs is `GET`, `PUT`, `POST`, `DELETE`: it holds the first
four documented methods and does not hold `PATCH`. -/
theorem patch_documented_not_allowed (env : Env) (port : String) :
    ((operations docTemplate).map (fun op => httpMethod op.method)).eraseDups =
      ["GET", "DELETE", "POST", "PUT", "PATCH"] ∧
    ("patch", "/sample/users/{id}") ∈ routes docTemplate ∧
    (∀ methods ∈ corsAllowMethods (RunServer env port).main,
      "GET" ∈ methods ∧ "DELETE" ∈ methods ∧ "POST" ∈ methods ∧ "PUT" ∈ methods ∧
      httpMethod "patch" ∉ methods) ∧
    corsAllowMethods (RunServer gracefulEnv "8888").main = [["GET", "PUT", "POST", "DELETE"]] := by
  refine ⟨by decide, by decide, ?_, by decide⟩
  intro methods hmem
  rw [corsAllowMethods_RunServer env port methods hmem]
  decide

set_option maxRecDepth 100000 in
/-- C19, evaluated on the code: the operations of `docTemplate` that do not
declare a path parameter under the name of each template variable of their
path are the eight operations on `/rg/{resourceGroupId}...`: six declare the
path parameter `ResourceGroupId`, which differs from the variable
`resourceGroupId` in letter case, and the blueprint and init operations
declare no path parameter at all. The operations on `/sample/users/{id}`
declare `id`. -/
theorem path_parameters_mismatch :
    ((operations docTemplate).filter (fun op => !declaresPathVariables op)).map
        (fun op => (op.method, op.path, pathVariables op.path, parametersIn "path" op)) =
      [("delete", "/rg/{resourceGroupId}", ["resourceGroupId"], ["ResourceGroupId"]),
       ("post", "/rg/{resourceGroupId}/vpn/gcp-aws", ["resourceGroupId"], ["ResourceGroupId"]),
       ("delete", "/rg/{resourceGroupId}/vpn/gcp-aws", ["resourceGroupId"], ["ResourceGroupId"]),
       ("delete", "/rg/{resourceGroupId}/vpn/gcp-aws/", ["resourceGroupId"], ["ResourceGroupId"]),
       ("post", "/rg/{resourceGroupId}/vpn/gcp-aws/blueprint", ["resourceGroupId"], []),
       ("post", "/rg/{resourceGroupId}/vpn/gcp-aws/init", ["resourceGroupId"], []),
       ("post", "/rg/{resourceGroupId}/vpn/gcp-aws/plan", ["resourceGroupId"], ["ResourceGroupId"]),
       ("get", "/rg/{resourceGroupId}/vpn/gcp-aws/state", ["resourceGroupId"], ["ResourceGroupId"])] ∧
    (∀ op ∈ operations docTemplate, op.path = "/sample/users/{id}" →
      pathVariables op.path = ["id"] ∧ parametersIn "path" op = ["id"]) := by
  decide

set_option maxRecDepth 100000 in
/-- C20, as stated, fails: the destroy operation `DELETE
/rg/{resourceGroupId}/vpn/gcp-aws` and the clear operation `DELETE
/rg/{resourceGroupId}/vpn/gcp-aws/` are both documented, and once the trailing
`/` is removed they have the same method and the same path, so the normalised
routes are not pairwise distinct. -/
theorem normalised_routes_collide :
    ("delete", "/rg/{resourceGroupId}/vpn/gcp-aws") ∈ routes docTemplate ∧
    ("delete", "/rg/{resourceGroupId}/vpn/gcp-aws/") ∈ routes docTemplate ∧
    trimTrailingSlash "/rg/{resourceGroupId}/vpn/gcp-aws/" =
      trimTrailingSlash "/rg/{resourceGroupId}/vpn/gcp-aws" ∧
    ¬ (normalisedRoutes docTemplate).Nodup := by
  decide

set_option maxRecDepth 100000 in
/-- C20, amended: no two operations documented in `docTemplate` have the same
HTTP method and the same path as written; the destroy and the clear operation
of the gcp-aws VPN differ only by the trailing `/` of the clear path, and they
are the only two operations that coincide once a trailing `/` is removed. -/
theorem routes_distinct_as_written :
    (routes docTemplate).Nodup ∧
    ((normalisedRoutes docTemplate).erase ("delete", "/rg/{resourceGroupId}/vpn/gcp-aws")).Nodup ∧
    (normalisedRoutes docTemplate).length = (routes docTemplate).length := by
  decide


/-! ## Theorems: the rate limiter -/

set_option maxRecDepth 100000 in
/-- The limiter grants a request whose wait would be a fraction of a
nanosecond: after twenty requests at one instant have emptied the bucket, a
request 49 999 999 ns later is let through, although a full token takes 50 ms;
the request that follows at 50 ms is rejected. -/
theorem wait_below_nanosecond_granted :
    (rateLimit (serverStore newYear2024) oneClientEarly).map (fun d => d.2) =
      List.replicate 21 true ++ [false] := by
  decide

set_option maxRecDepth 100000 in
/-- C15, evaluated on the code: the rate limiter `RunServer` installs keeps
one bucket of 20 tokens per client address, so it does not hold the application
to 20 requests per second. Forty requests that arrive at one instant, twenty
of each of two clients, are all let through; and a single client gets forty
requests through within one second, twenty at once and twenty more as its
bucket refills. Both are more than twenty requests in a window of one second,
over all clients and routes. -/
theorem more_than_twenty_pass :
    (rateLimit (serverStore newYear2024) twoClients).all (fun d => d.2) = true ∧
    passedInWindow (newYear2024 + 5 * Second) (rateLimit (serverStore newYear2024) twoClients) =
      40 ∧
    passedInWindow (newYear2024 + 5 * Second) (rateLimit (serverStore newYear2024) oneClient) =
      40 ∧
    ¬ (∀ (reqs : List Request) (t : Nat),
        passedInWindow t (rateLimit (serverStore newYear2024) reqs) ≤ 20) := by
  have h : passedInWindow (newYear2024 + 5 * Second)
      (rateLimit (serverStore newYear2024) twoClients) = 40 := by decide
  refine ⟨by decide, h, by decide, fun hall => ?_⟩
  have := hall twoClients (newYear2024 + 5 * Second)
  omega

/-! ## Theorems: workspace manager and orchestrator façade -/

/-- No outcome of a release is `Running`. -/
theorem Outcome.status_ne_Running (o : Outcome) : o.status ≠ Status.Running := by
  cases o <;> simp [Outcome.status]

/-- The check of `acquire` reads the pair of the key only. -/
theorem hasRunning_pair (m : RunningStatusMap) (rg scope : String) (a b : Action) :
    hasRunning m (rg, scope, a) = hasRunning m (rg, scope, b) := rfl

/-- After an accepted `acquire` on a pair and the `release` of its lease, no
record of the pair is `Running`. -/
theorem hasRunning_release_acquire (m : RunningStatusMap) (rg scope : String) (action : Action)
    (started finished : Nat) (outcome : Outcome)
    (h : hasRunning m (rg, scope, action) = false) :
    hasRunning
      (release
        ({ resourceGroupId := rg, scope := scope, action := action,
           status := .Running, startedAt := started, finishedAt := none, lastError := none }
          :: m.filter (fun r => decide (r.key ≠ (rg, scope, action))))
        ⟨(rg, scope, action)⟩ outcome finished) (rg, scope, action) = false := by
  unfold hasRunning at *
  rw [List.any_eq_false] at *
  intro r hr hp
  simp only [release, List.mem_map] at hr
  obtain ⟨x, hx, hxr⟩ := hr
  by_cases hcond : x.key = (rg, scope, action) ∧ x.status = Status.Running
  · rw [if_pos hcond] at hxr
    rw [← hxr] at hp
    simp only [Bool.and_eq_true, decide_eq_true_eq] at hp
    exact Outcome.status_ne_Running outcome hp.2
  · rw [if_neg hcond] at hxr
    rw [← hxr] at hp
    rcases List.mem_cons.mp hx with h1 | h1
    · rw [h1] at hcond
      exact hcond ⟨rfl, rfl⟩
    · exact h x (List.mem_filter.mp h1).1 hp

/-- `ensure` gives a workspace to the pair. -/
theorem ensure_any (ws : List Workspace) (rg scope : String) :
    (ensure ws rg scope).any
      (fun w => decide (w.resourceGroupId = rg) && decide (w.scope = scope)) = true := by
  unfold ensure
  by_cases h : ws.any (fun w => decide (w.resourceGroupId = rg) && decide (w.scope = scope)) = true
  · rw [if_pos h]; exact h
  · rw [if_neg h]
    simp

/-- `ensure` marks nothing: the workspace it creates is not initialized. -/
theorem isInitialized_ensure (ws : List Workspace) (rg1 scope1 rg scope : String) :
    isInitialized (ensure ws rg1 scope1) rg scope = isInitialized ws rg scope := by
  unfold ensure
  split
  · rfl
  · simp [isInitialized]

/-- Marking the workspace of the pair as initialized makes it initialized,
provided it exists. -/
theorem isInitialized_update (ws : List Workspace) (rg scope : String)
    (h : ws.any (fun w => decide (w.resourceGroupId = rg) && decide (w.scope = scope)) = true) :
    isInitialized (updateWorkspace ws rg scope (fun w => { w with initialized := true }))
      rg scope = true := by
  simp only [List.any_eq_true, Bool.and_eq_true, decide_eq_true_eq] at h
  obtain ⟨w, hw, h1, h2⟩ := h
  simp only [isInitialized, updateWorkspace, List.any_eq_true, List.mem_map, Bool.and_eq_true,
    decide_eq_true_eq]
  refine ⟨{ w with initialized := true }, ⟨w, hw, by simp [h1, h2]⟩, ⟨h1, h2⟩, rfl⟩

/-- Marking the workspace of one pair as initialized marks no workspace of
another pair. -/
theorem isInitialized_of_update (ws : List Workspace) (rg1 scope1 rg scope : String)
    (h : isInitialized (updateWorkspace ws rg1 scope1 (fun w => { w with initialized := true }))
      rg scope = true) :
    isInitialized ws rg scope = true ∨ (rg1 = rg ∧ scope1 = scope) := by
  simp only [isInitialized, updateWorkspace, List.any_eq_true, List.mem_map, Bool.and_eq_true,
    decide_eq_true_eq] at h
  obtain ⟨w1, ⟨w, hw, hw1⟩, ⟨h1, h2⟩, h3⟩ := h
  by_cases hcond : w.resourceGroupId = rg1 ∧ w.scope = scope1
  · rw [if_pos hcond] at hw1
    rw [← hw1] at h1 h2
    exact Or.inr ⟨hcond.1.symm.trans h1, hcond.2.symm.trans h2⟩
  · rw [if_neg hcond] at hw1
    rw [← hw1] at h1 h2 h3
    left
    simp only [isInitialized, List.any_eq_true, Bool.and_eq_true, decide_eq_true_eq]
    exact ⟨w, hw, ⟨h1, h2⟩, h3⟩

/-- A change of the workspaces that keeps their identifiers and their mark of
`Init` keeps what is initialized. -/
theorem isInitialized_update_keep (ws : List Workspace) (rg1 scope1 rg scope : String)
    (f : Workspace → Workspace)
    (hf : ∀ w, (f w).resourceGroupId = w.resourceGroupId ∧ (f w).scope = w.scope ∧
      (f w).initialized = w.initialized) :
    isInitialized (updateWorkspace ws rg1 scope1 f) rg scope = isInitialized ws rg scope := by
  unfold isInitialized updateWorkspace
  rw [List.any_map]
  congr 1
  funext w
  simp only [Function.comp]
  split
  · obtain ⟨h1, h2, h3⟩ := hf w
    rw [h1, h2, h3]
  · rfl

/-- Removing workspaces initializes none. -/
theorem isInitialized_of_filter (ws : List Workspace) (p : Workspace → Bool) (rg scope : String)
    (h : isInitialized (ws.filter p) rg scope = true) : isInitialized ws rg scope = true := by
  simp only [isInitialized, List.any_eq_true, List.mem_filter] at *
  obtain ⟨w, ⟨hw, _⟩, hp⟩ := h
  exact ⟨w, hw, hp⟩

/-- The answer for a result of the engine is never `InitRequired`. -/
theorem answer_ne_InitRequired (result : ExecutionResult) :
    result.answer ≠ .error OrchestratorError.InitRequired := by
  cases result <;> simp [ExecutionResult.answer]

/-- `Init` in full: refused while an operation is in flight on the pair;
otherwise the engine is run, its answer returned, and the workspace marked
exactly when the engine succeeded. -/
theorem Init_eq (s : Orchestrator) (rg scope : String) (result : ExecutionResult)
    (started finished : Nat) :
    (hasRunning s.tracker (rg, scope, Action.Init) = true ∧
      s.Init rg scope result started finished = (.error .OperationInProgress, s)) ∨
    (hasRunning s.tracker (rg, scope, Action.Init) = false ∧
      (s.Init rg scope result started finished).1 = result.answer ∧
      hasRunning (s.Init rg scope result started finished).2.tracker
        (rg, scope, Action.Init) = false ∧
      (s.Init rg scope result started finished).2.workspaces =
        (if result.succeeded then
          updateWorkspace (ensure s.workspaces rg scope) rg scope
            (fun w => { w with initialized := true })
         else ensure s.workspaces rg scope) ∧
      (s.Init rg scope result started finished).2.engineRuns =
        s.engineRuns ++ [(rg, scope, EngineAction.Init)]) := by
  rcases acquire_eq s.tracker rg scope Action.Init started with ⟨hbusy, hacq⟩ | ⟨hfree, hacq⟩
  · exact Or.inl ⟨hbusy, by simp only [Orchestrator.Init, hacq]⟩
  · refine Or.inr ⟨hfree, ?_, ?_, ?_, ?_⟩
    · simp only [Orchestrator.Init, hacq]
    · simp only [Orchestrator.Init, hacq]
      exact hasRunning_release_acquire s.tracker rg scope Action.Init started finished _ hfree
    · simp only [Orchestrator.Init, hacq]
    · simp only [Orchestrator.Init, hacq]

/-- `Plan` in full: refused while an operation is in flight on the pair;
otherwise `InitRequired` without a run of the engine when the workspace does
not hold the mark of `Init`, and the answer of the engine when it does. -/
theorem Plan_eq (s : Orchestrator) (rg scope : String) (result : ExecutionResult)
    (started finished : Nat) :
    (hasRunning s.tracker (rg, scope, Action.Plan) = true ∧
      s.Plan rg scope result started finished = (.error .OperationInProgress, s)) ∨
    (hasRunning s.tracker (rg, scope, Action.Plan) = false ∧
      isInitialized s.workspaces rg scope = false ∧
      (s.Plan rg scope result started finished).1 = .error .InitRequired ∧
      (s.Plan rg scope result started finished).2.workspaces = s.workspaces ∧
      (s.Plan rg scope result started finished).2.engineRuns = s.engineRuns) ∨
    (hasRunning s.tracker (rg, scope, Action.Plan) = false ∧
      isInitialized s.workspaces rg scope = true ∧
      (s.Plan rg scope result started finished).1 = result.answer ∧
      (s.Plan rg scope result started finished).2.workspaces =
        (if result.succeeded then
          updateWorkspace s.workspaces rg scope (fun w => { w with planned := true })
         else s.workspaces) ∧
      (s.Plan rg scope result started finished).2.engineRuns =
        s.engineRuns ++ [(rg, scope, EngineAction.Plan)]) := by
  rcases acquire_eq s.tracker rg scope Action.Plan started with ⟨hbusy, hacq⟩ | ⟨hfree, hacq⟩
  · exact Or.inl ⟨hbusy, by simp only [Orchestrator.Plan, hacq]⟩
  · cases hinit : isInitialized s.workspaces rg scope
    · refine Or.inr (Or.inl ⟨hfree, rfl, ?_, ?_, ?_⟩) <;>
        simp [Orchestrator.Plan, hacq, hinit]
    · refine Or.inr (Or.inr ⟨hfree, rfl, ?_, ?_, ?_⟩) <;>
        simp [Orchestrator.Plan, hacq, hinit]

/-- A move initializes the workspace of a pair only by a successful `Init` on
that pair. -/
theorem isInitialized_of_move (s : Orchestrator) (mv : Move) (rg scope : String)
    (h : isInitialized (s.move mv).workspaces rg scope = true) :
    isInitialized s.workspaces rg scope = true ∨ s.initSucceeds rg scope mv = true := by
  cases mv with
  | inFlight tracker => exact Or.inl h
  | call c =>
    cases c with
    | Init rg1 scope1 result started finished =>
      simp only [Orchestrator.move, Orchestrator.call] at h
      rcases Init_eq s rg1 scope1 result started finished with ⟨_, heq⟩ | ⟨_, hans, _, hws, _⟩
      · rw [heq] at h
        exact Or.inl h
      · rw [hws] at h
        cases hres : result.succeeded
        · rw [hres] at h
          simp only [Bool.false_eq_true, if_false, isInitialized_ensure] at h
          exact Or.inl h
        · rw [hres] at h
          simp only [if_true] at h
          rcases isInitialized_of_update _ _ _ _ _ h with h1 | ⟨h1, h2⟩
          · rw [isInitialized_ensure] at h1
            exact Or.inl h1
          · right
            subst h1
            subst h2
            simp only [Orchestrator.initSucceeds, decide_True, Bool.true_and, hans]
            cases result
            · rfl
            · cases hres
            · cases hres
    | Plan rg1 scope1 result started finished =>
      left
      simp only [Orchestrator.move, Orchestrator.call] at h
      rcases Plan_eq s rg1 scope1 result started finished with
        ⟨_, heq⟩ | ⟨_, _, _, hws, _⟩ | ⟨_, _, _, hws, _⟩
      · rw [heq] at h
        exact h
      · rw [hws] at h
        exact h
      · rw [hws] at h
        split at h
        · refine (isInitialized_update_keep _ _ _ _ _ _ ?_).symm.trans h
          exact fun w => ⟨rfl, rfl, rfl⟩
        · exact h
    | Apply rg1 scope1 result started finished =>
      left
      simp only [Orchestrator.move, Orchestrator.call, Orchestrator.Apply] at h
      rcases acquire_eq s.tracker rg1 scope1 Action.Apply started with ⟨_, hacq⟩ | ⟨_, hacq⟩
      · simpa only [hacq] using h
      · simp only [hacq] at h
        split at h
        · exact h
        · split at h
          · exact h
          · simp only at h
            split at h
            · refine (isInitialized_update_keep _ _ _ _ _ _ ?_).symm.trans h
              exact fun w => ⟨rfl, rfl, rfl⟩
            · exact h
    | Destroy rg1 scope1 result started finished =>
      left
      simp only [Orchestrator.move, Orchestrator.call, Orchestrator.Destroy] at h
      rcases acquire_eq s.tracker rg1 scope1 Action.Destroy started with ⟨_, hacq⟩ | ⟨_, hacq⟩
      · simpa only [hacq] using h
      · simp only [hacq] at h
        split at h
        · refine (isInitialized_update_keep _ _ _ _ _ _ ?_).symm.trans h
          exact fun w => ⟨rfl, rfl, rfl⟩
        · exact h
    | ClearWorkspace rg1 scope1 =>
      left
      simp only [Orchestrator.move, Orchestrator.call, Orchestrator.ClearWorkspace] at h
      split at h
      · exact h
      · exact isInitialized_of_filter _ _ _ _ h

/-- A workspace is initialized after a sequence of moves only if it was
before, or a successful `Init` has run on its pair in the course of them. -/
theorem isInitialized_of_moves (moves : List Move) (s : Orchestrator) (rg scope : String)
    (h : isInitialized (moves.foldl Orchestrator.move s).workspaces rg scope = true) :
    isInitialized s.workspaces rg scope = true ∨ initHasSucceeded s rg scope moves = true := by
  induction moves generalizing s with
  | nil => exact Or.inl h
  | cons mv rest ih =>
    simp only [initHasSucceeded, Bool.or_eq_true]
    rcases ih (s.move mv) h with h1 | h1
    · rcases isInitialized_of_move s mv rg scope h1 with h2 | h2
      · exact Or.inl h2
      · exact Or.inr (Or.inl h2)
    · exact Or.inr (Or.inr h1)

/-- A successful `Init` has run in the course of the moves and one more
exactly if it has in the course of the moves, or the last one is one. -/
theorem initHasSucceeded_append (moves : List Move) (s : Orchestrator) (rg scope : String)
    (mv : Move) :
    initHasSucceeded s rg scope (moves ++ [mv]) =
      (initHasSucceeded s rg scope moves ||
        (moves.foldl Orchestrator.move s).initSucceeds rg scope mv) := by
  induction moves generalizing s with
  | nil => simp [initHasSucceeded]
  | cons m rest ih =>
    show (s.initSucceeds rg scope m || initHasSucceeded (s.move m) rg scope (rest ++ [mv])) = _
    rw [ih]
    simp only [initHasSucceeded, List.foldl_cons, Bool.or_assoc]

/-- C11: take any execution of the orchestrator from its initial state, calls
of the façade and operations of other callers in flight, and any pair
`(resourceGroupId, scope)`. If no successful `Init` has run on the pair, its
workspace is fresh, and `Plan` on the pair never runs the engine and fails:
with `InitRequired`, unless an operation on the pair is in flight, which the
lease check that comes first answers with `OperationInProgress`. An `Init` that
finds no operation in flight on the pair and succeeds in the engine is
answered with success; and after any `Init` on the pair that is answered with
success, `Plan` on the pair runs the engine and returns the answer of the
engine, which is never `InitRequired`. -/
theorem Plan_requires_Init (moves : List Move) (rg scope : String) :
    (initHasSucceeded Orchestrator.initial rg scope moves = false →
      ∀ (result : ExecutionResult) (started finished : Nat),
        ((runMoves moves).Plan rg scope result started finished).1 =
          (if hasRunning (runMoves moves).tracker (rg, scope, Action.Plan) then
            .error OrchestratorError.OperationInProgress
           else .error OrchestratorError.InitRequired) ∧
        ((runMoves moves).Plan rg scope result started finished).2.engineRuns =
          (runMoves moves).engineRuns) ∧
    (hasRunning (runMoves moves).tracker (rg, scope, Action.Init) = false →
      ∀ (summary : String) (t0 t1 : Nat),
        ((runMoves moves).Init rg scope (.Succeeded summary) t0 t1).1 = .ok summary) ∧
    (∀ (initResult : ExecutionResult) (t0 t1 : Nat) (summary : String),
      ((runMoves moves).Init rg scope initResult t0 t1).1 = .ok summary →
      initHasSucceeded Orchestrator.initial rg scope
        (moves ++ [Move.call (Call.Init rg scope initResult t0 t1)]) = true ∧
      ∀ (result : ExecutionResult) (started finished : Nat),
        (((runMoves moves).Init rg scope initResult t0 t1).2.Plan rg scope result
          started finished).1 = result.answer ∧
        (((runMoves moves).Init rg scope initResult t0 t1).2.Plan rg scope result
          started finished).1 ≠ .error OrchestratorError.InitRequired ∧
        (((runMoves moves).Init rg scope initResult t0 t1).2.Plan rg scope result
          started finished).2.engineRuns =
          (runMoves moves).engineRuns ++
            [(rg, scope, EngineAction.Init), (rg, scope, EngineAction.Plan)]) := by
  refine ⟨?_, ?_, ?_⟩
  · intro hfresh result started finished
    have hinit : isInitialized (runMoves moves).workspaces rg scope = false := by
      cases hi : isInitialized (runMoves moves).workspaces rg scope
      · rfl
      · rcases isInitialized_of_moves moves Orchestrator.initial rg scope hi with h | h
        · simp [Orchestrator.initial, isInitialized] at h
        · rw [hfresh] at h
          cases h
    rcases Plan_eq (runMoves moves) rg scope result started finished with
      ⟨hbusy, heq⟩ | ⟨hfree, _, hans, _, hruns⟩ | ⟨_, hi, _⟩
    · rw [heq, hbusy]
      exact ⟨rfl, rfl⟩
    · rw [hans, hruns, hfree]
      exact ⟨rfl, rfl⟩
    · rw [hinit] at hi
      cases hi
  · intro hfree summary t0 t1
    rcases Init_eq (runMoves moves) rg scope (.Succeeded summary) t0 t1 with
      ⟨hbusy, _⟩ | ⟨_, hans, _⟩
    · rw [hfree] at hbusy
      cases hbusy
    · rw [hans]
      rfl
  · intro initResult t0 t1 summary hok
    rcases Init_eq (runMoves moves) rg scope initResult t0 t1 with
      ⟨_, heq⟩ | ⟨_, hans, htracker, hws, hruns⟩
    · rw [heq] at hok
      cases hok
    · have hsucc : initResult.succeeded = true := by
        rw [hans] at hok
        cases initResult <;> simp [ExecutionResult.answer] at hok
        rfl
      have hinit : isInitialized ((runMoves moves).Init rg scope initResult t0 t1).2.workspaces
          rg scope = true := by
        rw [hws, hsucc]
        exact isInitialized_update _ rg scope (ensure_any _ rg scope)
      refine ⟨?_, ?_⟩
      · rw [initHasSucceeded_append]
        have : (runMoves moves).initSucceeds rg scope
            (Move.call (Call.Init rg scope initResult t0 t1)) = true := by
          simp only [Orchestrator.initSucceeds, decide_True, Bool.true_and, hok]
        simp only [runMoves] at this
        rw [this, Bool.or_true]
      · intro result started finished
        rcases Plan_eq ((runMoves moves).Init rg scope initResult t0 t1).2 rg scope result
          started finished with ⟨hbusy, _⟩ | ⟨_, hi, _⟩ | ⟨_, _, hplan, _, hpruns⟩
        · rw [hasRunning_pair _ rg scope Action.Plan Action.Init, htracker] at hbusy
          cases hbusy
        · rw [hinit] at hi
          cases hi
        · refine ⟨hplan, hplan ▸ answer_ne_InitRequired result, ?_⟩
          rw [hpruns, hruns]
          simp

/-- C11, at a concrete execution: on `("rg-01", "gcp-aws")` one `Init` has
failed in the engine and one was refused while a `Destroy` of another caller
held the lease, so no `Init` has succeeded; the lease is free again, and
`Plan` fails with `InitRequired` without a run of the engine. After an `Init`
that succeeds, `Plan` returns the summary of the engine. -/
theorem Plan_requires_Init_witness :
    initHasSucceeded Orchestrator.initial "rg-01" "gcp-aws" sampleMoves = false ∧
    hasRunning (runMoves sampleMoves).tracker ("rg-01", "gcp-aws", Action.Plan) = false ∧
    ((runMoves sampleMoves).Plan "rg-01" "gcp-aws" (.Succeeded "2 to add") 8 9).1 =
      .error OrchestratorError.InitRequired ∧
    ((runMoves sampleMoves).Plan "rg-01" "gcp-aws" (.Succeeded "2 to add") 8 9).2.engineRuns =
      (runMoves sampleMoves).engineRuns ∧
    ((runMoves sampleMoves).Init "rg-01" "gcp-aws" (.Succeeded "initialized") 8 9).1 =
      .ok "initialized" ∧
    (((runMoves sampleMoves).Init "rg-01" "gcp-aws" (.Succeeded "initialized") 8 9).2.Plan
      "rg-01" "gcp-aws" (.Succeeded "2 to add") 10 11).1 = .ok "2 to add" := by
  have h := Plan_requires_Init sampleMoves "rg-01" "gcp-aws"
  have hfresh : initHasSucceeded Orchestrator.initial "rg-01" "gcp-aws" sampleMoves = false := by
    decide
  have hfree : hasRunning (runMoves sampleMoves).tracker ("rg-01", "gcp-aws", Action.Plan) =
      false := by decide
  have hplan := h.1 hfresh (.Succeeded "2 to add") 8 9
  have hinit := h.2.1 hfree "initialized" 8 9
  refine ⟨hfresh, hfree, ?_, hplan.2, hinit, ?_⟩
  · rw [hplan.1, hfree]
    rfl
  · exact ((h.2.2 (.Succeeded "initialized") 8 9 "initialized" hinit).2
      (.Succeeded "2 to add") 10 11).1

/-- C13: whenever no `Running` record exists for the resource group (or for
the scope, when one is given), `ClearWorkspace` succeeds, a second call
succeeds too and leaves the state exactly as the first call left it; and on a
resource group that is already cleared the first call leaves the state as it
was as well. -/
theorem ClearWorkspace_idempotent (s : Orchestrator) (rg : String) (scope : Option String)
    (hfree : ∀ r ∈ s.tracker, underClear rg scope r.resourceGroupId r.scope = true →
      r.status ≠ Status.Running) :
    (s.ClearWorkspace rg scope).1 = .ok () ∧
    (s.ClearWorkspace rg scope).2.ClearWorkspace rg scope =
      (.ok (), (s.ClearWorkspace rg scope).2) ∧
    ((∀ w ∈ s.workspaces, underClear rg scope w.resourceGroupId w.scope = false) →
      (s.ClearWorkspace rg scope).2 = s) := by
  have hno : s.tracker.any (fun r => underClear rg scope r.resourceGroupId r.scope &&
      decide (r.status = Status.Running)) = false := by
    rw [List.any_eq_false]
    intro r hr hcon
    simp only [Bool.and_eq_true, decide_eq_true_eq] at hcon
    exact hfree r hr hcon.1 hcon.2
  have hfirst : s.ClearWorkspace rg scope =
      (.ok (),
        { s with
          workspaces :=
            s.workspaces.filter (fun w => !underClear rg scope w.resourceGroupId w.scope) }) := by
    simp [Orchestrator.ClearWorkspace, hno]
  rw [hfirst]
  refine ⟨rfl, ?_, ?_⟩
  · simp [Orchestrator.ClearWorkspace, hno, List.filter_filter]
  · intro hcleared
    have : s.workspaces.filter (fun w => !underClear rg scope w.resourceGroupId w.scope) =
        s.workspaces := by
      rw [List.filter_eq_self]
      intro w hw
      simp [hcleared w hw]
    simp only [this]

/-- Witness of C13: after the sample calls, which end in a clear of `rg-01`,
clearing `rg-01` again succeeds twice and changes nothing. -/
theorem ClearWorkspace_idempotent_witness :
    (∀ r ∈ (runCalls sampleCalls).tracker,
      underClear "rg-01" none r.resourceGroupId r.scope = true → r.status ≠ Status.Running) ∧
    ((runCalls sampleCalls).ClearWorkspace "rg-01" none).1 = .ok () ∧
    ((runCalls sampleCalls).ClearWorkspace "rg-01" none).2.ClearWorkspace "rg-01" none =
      (.ok (), ((runCalls sampleCalls).ClearWorkspace "rg-01" none).2) ∧
    ((∀ w ∈ (runCalls sampleCalls).workspaces,
        underClear "rg-01" none w.resourceGroupId w.scope = false) →
      ((runCalls sampleCalls).ClearWorkspace "rg-01" none).2 = runCalls sampleCalls) :=
  ⟨by decide, ClearWorkspace_idempotent (runCalls sampleCalls) "rg-01" none (by decide)⟩

/-! ## Theorems: `pathFor` -/

/-- Two lists that agree after a separator absent from both prefixes have the
same prefixes and the same rests. -/
theorem append_cons_inj_of_not_mem (x : Char) (a c b d : List Char)
    (ha : x ∉ a) (hc : x ∉ c) (h : a ++ x :: b = c ++ x :: d) : a = c ∧ b = d := by
  induction a generalizing c with
  | nil =>
    cases c with
    | nil => simpa using h
    | cons y c =>
      simp only [List.nil_append, List.cons_append, List.cons.injEq] at h
      exact absurd (List.mem_cons.mpr (Or.inl h.1)) hc
  | cons y a ih =>
    cases c with
    | nil =>
      simp only [List.nil_append, List.cons_append, List.cons.injEq] at h
      exact absurd (List.mem_cons.mpr (Or.inl h.1.symm)) ha
    | cons z c =>
      simp only [List.cons_append, List.cons.injEq] at h
      obtain ⟨h1, h2⟩ := ih c (fun hm => ha (List.mem_cons_of_mem _ hm))
        (fun hm => hc (List.mem_cons_of_mem _ hm)) h.2
      exact ⟨by rw [h.1, h1], h2⟩

/-- An identifier without path separator does not hold `/`. -/
theorem not_mem_of_hasPathSeparator (id : String) (h : hasPathSeparator id = false) :
    '/' ∉ id.toList := by
  intro hm
  have : hasPathSeparator id = true := by
    simp only [hasPathSeparator, List.any_eq_true]
    exact ⟨'/', hm, by decide⟩
  rw [h] at this
  cases this

/-- What `pathFor` returns when it accepts. -/
theorem pathFor_ok (root rg scope p : String) (h : pathFor root rg scope = .ok p) :
    hasPathSeparator rg = false ∧ p = root ++ "/" ++ rg ++ "/" ++ scope := by
  unfold pathFor at h
  split at h
  · cases h
  · rename_i hc
    simp only [Bool.or_eq_true, not_or, Bool.not_eq_true] at hc
    injection h with h
    exact ⟨hc.1.1.1, h.symm⟩

/-- C12: `pathFor` rejects with `InvalidIdentifier` every resource group
identifier or scope that holds a path separator or a parent-reference
sequence, `pathFor("../etc", "x")` among them; every other pair is accepted
and gets the scope's subdirectory of the resource group's directory, a value
fixed by the identifiers alone, so the same on every call; and two accepted
pairs with the same path are the same pair. -/
theorem pathFor_safe_and_injective (root : String) :
    (∀ rg scope : String,
      hasPathSeparator rg = true ∨ hasParentReference rg.toList = true ∨
        hasPathSeparator scope = true ∨ hasParentReference scope.toList = true →
      pathFor root rg scope = .error OrchestratorError.InvalidIdentifier) ∧
    pathFor root "../etc" "x" = .error OrchestratorError.InvalidIdentifier ∧
    pathFor root "rg-01" "../../etc" = .error OrchestratorError.InvalidIdentifier ∧
    pathFor root "rg-01" "gcp-aws" = .ok (root ++ "/" ++ "rg-01" ++ "/" ++ "gcp-aws") ∧
    (∀ rg scope : String,
      hasPathSeparator rg = false → hasParentReference rg.toList = false →
      hasPathSeparator scope = false → hasParentReference scope.toList = false →
      pathFor root rg scope = .ok (root ++ "/" ++ rg ++ "/" ++ scope)) ∧
    (∀ rg scope rg1 scope1 p : String,
      pathFor root rg scope = .ok p → pathFor root rg1 scope1 = .ok p →
      rg = rg1 ∧ scope = scope1) := by
  have hreject : ∀ rg scope : String,
      hasPathSeparator rg = true ∨ hasParentReference rg.toList = true ∨
        hasPathSeparator scope = true ∨ hasParentReference scope.toList = true →
      pathFor root rg scope = .error OrchestratorError.InvalidIdentifier := by
    intro rg scope h
    unfold pathFor
    rw [if_pos]
    simp only [Bool.or_eq_true]
    tauto
  have haccept : ∀ rg scope : String,
      hasPathSeparator rg = false → hasParentReference rg.toList = false →
      hasPathSeparator scope = false → hasParentReference scope.toList = false →
      pathFor root rg scope = .ok (root ++ "/" ++ rg ++ "/" ++ scope) := by
    intro rg scope h1 h2 h3 h4
    unfold pathFor
    rw [h1, h2, h3, h4]
    rfl
  refine ⟨hreject, hreject _ _ (Or.inl (by decide)), hreject _ _ (Or.inr (Or.inr (Or.inl (by decide)))),
    haccept _ _ (by decide) (by decide) (by decide) (by decide), haccept, ?_⟩
  intro rg scope rg1 scope1 p h h1
  obtain ⟨hs, hp⟩ := pathFor_ok root rg scope p h
  obtain ⟨hs1, hp1⟩ := pathFor_ok root rg1 scope1 p h1
  have heq : (root ++ "/" ++ rg ++ "/" ++ scope).data = (root ++ "/" ++ rg1 ++ "/" ++ scope1).data := by
    rw [← hp, ← hp1]
  simp only [String.data_append, List.append_assoc, List.append_cancel_left_eq] at heq
  have hlist : rg.data ++ '/' :: scope.data = rg1.data ++ '/' :: scope1.data := heq
  obtain ⟨ha, hb⟩ := append_cons_inj_of_not_mem '/' rg.data rg1.data scope.data scope1.data
    (not_mem_of_hasPathSeparator rg hs) (not_mem_of_hasPathSeparator rg1 hs1) hlist
  exact ⟨String.ext ha, String.ext hb⟩

end Terrarium
